import Mathlib

/-!
# Verification of the CyBEr1924 orchestration core (`multi_agent_platform/run_flow.py`)

This file is a shallow embedding, in Lean 4, of the orchestration core of the
repository: the plan/subtask data model (`plan_model.py`), the session state
(`session_state.py`), and the command dispatcher / pipeline helpers of
`run_flow.py`.  Pure Python functions become Lean functions; the mutable
`OrchestratorState` and `Plan` objects become explicit state passing; the
append-only envelope log becomes a `List Envelope`.

Modelling conventions, stated once here:

* Python strings are Lean `String`s.  `str.strip`, `str.lower`, `str.upper`,
  `str.splitlines`, `x in s`, and `lstrip` are re-implemented over `List Char`
  with the ASCII whitespace set `{' ', '\t', '\n', '\r', '\x0b', '\x0c'}`
  (Python additionally strips some uncommon Unicode whitespace; no string in
  the claims depends on those).  Python string comparison (`>=` on ISO
  timestamps) is code-point lexicographic comparison, embedded as `strLe`.
* Python truthiness of a string is `s ≠ ""`; missing dictionary keys that the
  code reads with `.get(k) or default` are embedded as fields defaulting to
  `""` (or `Option` where the code distinguishes a `None` from `""`).
* The untyped `state.extra` dictionary is embedded as the `Extra` record whose
  fields are exactly the keys `run_flow.py` reads or writes.
* External collaborators (the LLM generation service for
  planner/worker/reviewer/intent-classifier, the artifact store path
  generator, and wall-clock timestamps) are parameters collected in the
  `Oracles` record; every theorem quantifies over them.  The deterministic
  stub worker `run_worker_for_subtask` and stub reviewer
  `run_reviewer_on_output` are code of the repository and are embedded
  concretely.
* `execute_command` is embedded for the API path, i.e. with the optional
  `interactive_coordinator` argument absent (`None`), which is how the unified
  command entry point is driven by `api.py`; the interactive-CLI review branch
  is out of scope of the claims.
* `plan_model.Subtask` in the snapshot has no `metadata` field, yet
  `run_flow.py` constructs `Subtask(..., metadata=...)` and the repository's
  tests read `subtask.metadata`; the embedding follows `run_flow.py` and the
  data-model section of the documentation and gives `Subtask` a `metadata`
  field (defaulting to the empty map), modelled as an association list from
  keys to numeric values (the only value ever stored is `chapter_index`).
* Side effects that cannot influence any claim are dropped: `print` calls,
  file persistence (`save_state` / `save_orchestrator_state` rewrite the same
  data that the in-memory objects already hold), and the read-only snapshot
  assembly of `build_session_snapshot`.  The auto-redo hook
  `_auto_trigger_redo_from_logs`, which `_render_session_snapshot` runs before
  every snapshot and which does mutate plan and state, *is* embedded and is
  part of the embedded `execute_command`.
-/

namespace MAP

/-! ## Python string primitives -/

/-- Python ASCII whitespace (the characters `str.strip` and `\s` treat as
space in the ASCII range): space, tab, newline, carriage return, vertical
tab, form feed. -/
def pyIsSpace (c : Char) : Bool :=
  c = ' ' || c = '\t' || c = '\n' || c = '\r' || c = '\x0b' || c = '\x0c'

/-- `str.strip()` on a character list. -/
def stripChars (l : List Char) : List Char :=
  ((l.dropWhile pyIsSpace).reverse.dropWhile pyIsSpace).reverse

/-- Python `str.strip()`. -/
def pyStrip (s : String) : String := ⟨stripChars s.data⟩

/-- Python `str.lower()` (ASCII letters; other characters unchanged). -/
def pyLower (s : String) : String := ⟨s.data.map Char.toLower⟩

/-- Python `str.upper()` (ASCII letters; other characters unchanged). -/
def pyUpper (s : String) : String := ⟨s.data.map Char.toUpper⟩

/-- Substring test on character lists: Python `needle in hay`. -/
def listContains (hay needle : List Char) : Bool :=
  needle.isPrefixOf hay ||
    match hay with
    | [] => false
    | _ :: t => listContains t needle

/-- Python `sub in s`. -/
def strContains (s sub : String) : Bool := listContains s.data sub.data

/-- Python `str.splitlines()` over a character list: split at `\n`, `\r`,
`\r\n`, `\x0b`, `\x0c` (the ASCII line boundaries); a trailing terminator
does not produce a final empty line. -/
def splitLinesChars : List Char → List Char → List String
  | cur, [] => if cur.isEmpty then [] else [⟨cur.reverse⟩]
  | cur, '\r' :: '\n' :: t => ⟨cur.reverse⟩ :: splitLinesChars [] t
  | cur, c :: t =>
    if c = '\n' || c = '\r' || c = '\x0b' || c = '\x0c' then
      ⟨cur.reverse⟩ :: splitLinesChars [] t
    else
      splitLinesChars (c :: cur) t

/-- Python `str.splitlines()`. -/
def pySplitLines (s : String) : List String := splitLinesChars [] s.data

/-- Python `"sep".join(parts)` with separator `\n`. -/
def joinNL (parts : List String) : String := String.intercalate "\n" parts

/-- Python `"\n\n".join(parts)`. -/
def joinPara (parts : List String) : String := String.intercalate "\n\n" parts

/-- Python `line.split(":", 1)[1]`: the text after the first `:` (the callers
guard that a `:` is present). -/
def afterFirstColon (s : String) : String :=
  ⟨(s.data.dropWhile (· ≠ ':')).drop 1⟩

/-- Python `s.lstrip("/")`. -/
def lstripSlash (s : String) : String := ⟨s.data.dropWhile (· = '/')⟩

/-- Python `s.startswith(pre)` over the character lists. -/
def pyStartsWith (s pre : String) : Bool := pre.data.isPrefixOf s.data

/-- Code-point lexicographic `List Char` comparison, `l₁ ≤ l₂`, matching
Python's string comparison. -/
def charsLe : List Char → List Char → Bool
  | [], _ => true
  | _ :: _, [] => false
  | a :: as, b :: bs =>
    if a.val < b.val then true
    else if b.val < a.val then false
    else charsLe as bs

/-- Python `s₁ <= s₂` on strings (used on ISO timestamps). -/
def strLe (a b : String) : Bool := charsLe a.data b.data

/-- Python `s₁ >= s₂`. -/
def strGe (a b : String) : Bool := strLe b a

/-! ## Decimal printing and parsing of subtask numbers

`_generate_subtask_id` prints `f"t{next_num}"` and parses existing ids with
`id[1:].isdigit()` / `int(id[1:])`.  We embed decimal printing with our own
canonical printer so that the parse/print round trip is provable. -/

/-- The decimal digit character for `n < 10`. -/
def digitChar : Nat → Char
  | 0 => '0' | 1 => '1' | 2 => '2' | 3 => '3' | 4 => '4'
  | 5 => '5' | 6 => '6' | 7 => '7' | 8 => '8' | _ => '9'

/-- Numeric value of a digit character (Python `int` on a single digit). -/
def digitVal (c : Char) : Nat := c.toNat - 48

/-- Fuel-driven worker for `natDigits` (structural recursion on the fuel,
so that the digits of a literal compute by kernel reduction). -/
def natDigitsAux : Nat → Nat → List Char
  | 0, _ => []
  | fuel + 1, n =>
    if n < 10 then [digitChar n]
    else natDigitsAux fuel (n / 10) ++ [digitChar (n % 10)]

/-- Canonical decimal digits of `n`, most significant first (the characters
of Python `str(n)`). -/
def natDigits (n : Nat) : List Char := natDigitsAux (n + 1) n

/-- Python `str(n)` for a natural number. -/
def natRepr (n : Nat) : String := ⟨natDigits n⟩

/-- Python `int(s)` on a string of decimal digits. -/
def parseDigits (l : List Char) : Nat :=
  l.foldl (fun acc c => 10 * acc + digitVal c) 0

/-! ## Data model (`plan_model.py`, `session_state.py`) -/

/-- `plan_model.Subtask` (see the header note: the `metadata` field follows
`run_flow.py`'s constructor calls and the repository's tests). -/
structure Subtask where
  id : String
  title : String
  status : String := "pending"
  description : String := ""
  notes : String := ""
  output : String := ""
  needs_redo : Bool := false
  metadata : List (String × Nat) := []
deriving Repr, DecidableEq

/-- `plan_model.Plan`. -/
structure Plan where
  plan_id : String
  title : String
  description : String := ""
  notes : String := ""
  subtasks : List Subtask := []
deriving Repr, DecidableEq

/-- One entry of the `state.extra["reviewer_revisions"]` cache
(`_cache_reviewer_revision_entry`). -/
structure RevisionEntry where
  batch_id : String := ""
  text : String := ""
  artifact_path : String := ""
deriving Repr, DecidableEq

/-- One entry of `state.extra["reviewer_batch_tasks"]`
(`_enqueue_reviewer_batch_task`). -/
structure BatchEntry where
  subtask_id : String
  title : String
  artifact_path : String := ""
  worker_output_preview : String := ""
deriving Repr, DecidableEq

/-- `state.extra["novel_inflight_batch"]` (`_finalize_reviewer_batch`,
extended by `apply_reviewer_revision`;  the `timestamp`/`applied_at` wall
clock values are not modelled). -/
structure InflightBatch where
  batch_id : String := ""
  summary : String := ""
  reason : String := ""
  decision : String := ""
  applied_subtasks : List String := []
deriving Repr, DecidableEq

/-- One entry of `state.extra["recent_worker_outputs"]`
(`_record_recent_worker_output`; the `ts` field is not modelled). -/
structure RecentOutput where
  subtask_id : String
  title : String
  preview : String := ""
  artifact_path : String := ""
deriving Repr, DecidableEq

/-- One element of `novel_profile["characters"]`. -/
structure NovelCharacter where
  name : String := ""
  role : String := ""
deriving Repr, DecidableEq

/-- The `novel_profile` dictionary. -/
structure NovelProfile where
  length : String := ""
  year : String := ""
  genre : String := ""
  other_genres : String := ""
  style : String := ""
  title_text : String := ""
  characters : List NovelCharacter := []
  extra_notes : String := ""
  chapter_count : Option Nat := none
deriving Repr, DecidableEq

/-- The `state.extra` bag, typed with exactly the keys `run_flow.py`
reads/writes.  An absent string key and `""`/`None` are identified (the code
only tests them for truthiness or `.get(...) or default`); an absent
`novel_profile` and an empty profile dictionary are likewise identified. -/
structure Extra where
  novel_mode : Bool := false
  novel_profile : Option NovelProfile := none
  novel_summary_t1_t4 : String := ""
  t4_detailed_chapter_allocations : String := ""
  novel_summary_artifact : Option (String × String) := none
  reviewer_batch_tasks : List BatchEntry := []
  reviewer_batch_counter : Nat := 0
  reviewer_revisions : List (String × RevisionEntry) := []
  reviewer_revisions_batch : String := ""
  processed_redo_decisions : List (String × String) := []
  novel_inflight_batch : Option InflightBatch := none
  recent_worker_outputs : List RecentOutput := []
  novel_phase_step : Nat := 0
  last_error : String := ""
deriving Repr, DecidableEq

/-- The `target_subtask_id` of an orchestrator event: Python `None`, an
`int`, or a `str`. -/
inductive EvTarget where
  | noneT : EvTarget
  | intT : Int → EvTarget
  | strT : String → EvTarget
deriving Repr, DecidableEq

/-- A queued `state.orch_events` entry (the dictionaries appended by
`run_orchestrator_turn`, `consume_orchestrator_events` and
`_auto_trigger_redo_from_logs`; the optional `source`/`ts`/`raw_text`/
`needs_redo` keys are never read back and are not modelled). -/
structure OrchEvent where
  kind : String
  raw_kind : String := ""
  target_subtask_id : EvTarget := .noneT
  instructions : String := ""
deriving Repr, DecidableEq

/-- `session_state.OrchestratorState`.  `orchestrator_messages`,
`planner_chat` and `progress_events` keep the fields the claims observe
(role/content, agent/subtask/stage); wall-clock `ts` fields are dropped.
`worker_outputs` entries are `(subtask_id, title, artifact_path)`. -/
structure OState where
  session_id : String
  plan_id : String
  status : String := "idle"
  current_subtask_id : Option String := none
  extra : Extra := {}
  plan_locked : Bool := false
  orchestrator_messages : List (String × String) := []
  orch_events : List OrchEvent := []
  progress_events : List (String × String × String) := []
  planner_chat : List (String × String) := []
  worker_outputs : List (String × String × String) := []
deriving Repr, DecidableEq

/-- One line of `logs/<session>/envelopes.jsonl`, projected onto the fields
the orchestration core reads back (`payload_type`, the `subtask_id` /
`decision` / `reason` of a `coord_decision` payload, and the timestamp). -/
structure Envelope where
  payload_type : String
  subtask_id : String := ""
  decision : String := ""
  reason : String := ""
  timestamp : String := ""
deriving Repr, DecidableEq

/-- A session as the dispatcher sees it: plan snapshot, orchestrator state,
and the append-only envelope log. -/
structure Sess where
  plan : Plan
  state : OState
  log : List Envelope := []
deriving Repr, DecidableEq

/-- `state.add_orchestrator_message`: record a message when the role is
`user` or `orchestrator`. -/
def addMessage (st : OState) (role content : String) : OState :=
  if role = "user" || role = "orchestrator" then
    { st with orchestrator_messages := st.orchestrator_messages ++ [(role, content)] }
  else st

/-- `_append_progress_event` as used through `_record_progress_event`
(agent, subtask id, stage; no-op on an empty subtask id). -/
def addProgressEvent (st : OState) (agent : String) (subtaskId : String)
    (stage : String) : OState :=
  if subtaskId = "" then st
  else { st with progress_events := st.progress_events ++ [(agent, subtaskId, stage)] }

/-! ## Module-level helpers of `run_flow.py` -/

/-- `PLAN_EDITING_KINDS`. -/
def PLAN_EDITING_KINDS : List String :=
  ["set_current_subtask", "update_subtask", "insert_subtask",
   "append_subtask", "skip_subtask"]

/-- `CHAPTER_FULL_CONTENT`. -/
def CHAPTER_FULL_CONTENT : String := "请写完整内容，覆盖该章节/任务的全文结果。"

/-- `_chapter_title`. -/
def chapter_title (chapter_index : Nat) (base_title : String) : String :=
  let pre := "Chapter " ++ natRepr chapter_index
  let cleaned := pyStrip base_title
  if pyStartsWith cleaned pre then cleaned
  else if cleaned ≠ "" then pre ++ ": " ++ cleaned
  else pre

/-- `_chapter_description`. -/
def chapter_description (base_desc : String) : String :=
  let trimmed := pyStrip base_desc
  if trimmed ≠ "" then trimmed ++ "\n" ++ CHAPTER_FULL_CONTENT
  else CHAPTER_FULL_CONTENT

/-- Does the lower-cased character list start with `chapter`, then `\s*`,
then a digit — i.e. does `re.search(r"chapter\s*\d+", ·, IGNORECASE)` match
at this position? -/
def chapterIndexMatchAt (l : List Char) : Bool :=
  let low := l.map Char.toLower
  "chapter".data.isPrefixOf low &&
    (match (low.drop 7).dropWhile pyIsSpace with
     | d :: _ => d.isDigit
     | [] => false)

/-- Search every position for the `chapter\s*\d+` pattern. -/
def hasChapterIndex : List Char → Bool
  | [] => false
  | c :: t => chapterIndexMatchAt (c :: t) || hasChapterIndex t

/-- `_chapter_title_has_index`. -/
def chapter_title_has_index (title : String) : Bool :=
  if title = "" then false else hasChapterIndex title.data

/-- `_chapter_description_has_full_content`. -/
def chapter_description_has_full_content (desc : String) : Bool :=
  desc ≠ "" && strContains desc CHAPTER_FULL_CONTENT

/-- A raw planner-subtask dictionary, with the keys the code reads; absent
keys default to `""`/`[]`. -/
structure RawSubtask where
  subtask_id : String := ""
  id_alt : String := ""
  title : String := ""
  subtask_description : String := ""
  description : String := ""
  notes : String := ""
  status : String := ""
  metadata : List (String × Nat) := []
deriving Repr, DecidableEq

/-- `raw.get("subtask_id") or raw.get("id")` (`""` when both are missing). -/
def RawSubtask.effId (r : RawSubtask) : String :=
  if r.subtask_id ≠ "" then r.subtask_id else r.id_alt

/-- `raw.get("description") or raw.get("notes") or ""`. -/
def RawSubtask.descOrNotes (r : RawSubtask) : String :=
  if r.description ≠ "" then r.description else r.notes

/-- `_is_valid_chapter_candidate`. -/
def is_valid_chapter_candidate (raw : RawSubtask) : Bool :=
  chapter_title_has_index raw.title &&
    chapter_description_has_full_content raw.descOrNotes

/-- Update (or first-insert) a key of an association list, keeping dict
insertion order. -/
def assocSet {α : Type} (l : List (String × α)) (k : String) (v : α) :
    List (String × α) :=
  if (l.lookup k).isSome then
    l.map (fun p => if p.1 = k then (k, v) else p)
  else l ++ [(k, v)]

/-- `_normalize_chapter_subtask`. -/
def normalize_chapter_subtask (raw : RawSubtask) (index : Nat) : RawSubtask :=
  let chapter_index := max 1 (index - 4)
  let base_title := if raw.title ≠ "" then raw.title else raw.subtask_description
  let normalized_title := chapter_title chapter_index base_title
  let normalized_description := chapter_description raw.descOrNotes
  let sid := if raw.effId ≠ "" then raw.effId else "t" ++ natRepr index
  let md := assocSet raw.metadata "chapter_index" chapter_index
  { subtask_id := sid, id_alt := sid, title := normalized_title,
    description := normalized_description,
    status := if raw.status ≠ "" then raw.status else "pending",
    notes := raw.notes, metadata := md }

/-- `_normalize_event_kind`. -/
def normalize_event_kind (kind : String) : String :=
  if kind = "" then "REQUEST_OTHER"
  else
    let lowered := pyLower (pyStrip kind)
    if lowered = "content_change" || lowered = "request_content_change" ||
        lowered = "content" then "REQUEST_CONTENT_CHANGE"
    else if lowered = "plan_update" || lowered = "request_plan_update" ||
        lowered = "modify_plan" || lowered = "plan" then "REQUEST_PLAN_UPDATE"
    else if lowered = "other" || lowered = "request_other" then "REQUEST_OTHER"
    else if lowered = "trigger_redo" || lowered = "redo" then "TRIGGER_REDO"
    else pyUpper kind

/-- `_parse_reviewer_response`: parse reviewer/coordinator output into
`(decision, reason, revised_text)`. -/
def parse_reviewer_response (decision_text : String) : String × String × Option String :=
  let lines := ((pySplitLines (pyStrip decision_text)).map pyStrip).filter (fun l => l ≠ "")
  match lines with
  | [] => ("ACCEPT", "", none)
  | first :: remaining =>
    let decision_line := pyUpper first
    let decision := if strContains decision_line "ACCEPT" then "ACCEPT" else "REDO"
    let folded := remaining.foldl
      (fun (acc : List String × List String × Bool) line =>
        let lower := pyLower line
        if pyStartsWith lower "revised_text:" || pyStartsWith lower "revised:" then
          (acc.1 ++ [pyStrip (afterFirstColon line)], acc.2.1, true)
        else if acc.2.2 then (acc.1 ++ [line], acc.2.1, acc.2.2)
        else (acc.1, acc.2.1 ++ [line], acc.2.2))
      ([], [], false)
    let revised_joined := pyStrip (joinNL folded.1)
    let revised_text := if revised_joined = "" then none else some revised_joined
    (decision, pyStrip (joinNL folded.2.1), revised_text)

/-- `run_worker_for_subtask` (the placeholder worker used by the
orchestrator-event consumer). -/
def run_worker_for_subtask (subtask : Subtask) (instructions : String) : String :=
  let base := "[worker rewrite for " ++ subtask.id ++ "]"
  if instructions ≠ "" then
    base ++ " Applying instructions: " ++ instructions
  else
    base ++ " No additional instructions provided."

/-- `run_reviewer_on_output` (the placeholder reviewer): always
`decision="accept"` with note `placeholder review`, no revised text. -/
def run_reviewer_on_output : String × String × Option String :=
  ("accept", "placeholder review", none)

/-! ## External collaborators (oracles) -/

/-- `planner_agent.PlannerResult`, projected onto the fields the merge reads:
the plan header dictionary and the raw subtask dictionaries. -/
structure PlannerResult where
  plan : Option (String × String × String × String) := none
  subtasks : List RawSubtask := []
deriving Repr, DecidableEq

/-- `orchestrator_intent_agent.OrchestratorAction`. -/
structure IntentAction where
  kind : String := "REQUEST_OTHER"
  raw_kind : String := ""
  target_subtask_id : EvTarget := .noneT
  instructions : String := ""
  needs_redo : Bool := false
deriving Repr, DecidableEq

/-- The external collaborators: LLM generation service (planner / reviewer /
chat coordinator / intent classifier), artifact-store path allocation, and
the wall clock.  Every theorem quantifies over this record, so the proofs
hold for every behaviour of the external services. -/
structure Oracles where
  /-- Timestamp written on newly appended envelopes (`datetime.now`). -/
  now : String := ""
  /-- `ArtifactStore.save_artifact(...).path` for given content. -/
  artifact_path : String → String := fun _ => ""
  /-- `self.planner.run(prompt)` in `_call_planner`, keyed by the topic. -/
  planner_outline : String → String := fun _ => ""
  /-- `planner_agent.run_planner_agent`, keyed by the latest user input. -/
  planner_agent : String → PlannerResult := fun _ => {}
  /-- `self.coordinator.run(build_coordinator_review_prompt(...))`, given
  (subtask id, worker output, assembled extra context, strict novel mode). -/
  coordinator_review : String → String → Option String → Bool → String :=
    fun _ _ _ _ => ""
  /-- `answer_user_question`: the coordinator chat reply, given the plan
  brief text and the user input (the deterministic context assembly feeding
  the prompt is folded into this oracle; it mutates nothing). -/
  coordinator_chat : String → String → String := fun _ _ => ""
  /-- `run_orchestrator_intent_agent`, keyed by the user text. -/
  intent : String → IntentAction := fun _ => {}
  /-- `USE_REAL_PLANNER` (environment flag). -/
  use_real_planner : Bool := false
  /-- The fresh `plan-{uuid4}` id minted by `Plan.from_outline`. -/
  new_plan_id : String := ""

/-! ## Novel-mode helpers of `run_flow.py` -/

/-- The profile-derived description suffix `_desc` inside
`_build_novel_t1_t4`. -/
def novelDesc (p : NovelProfile) (text : String) : String :=
  let genre := if p.genre ≠ "" then p.genre else p.other_genres
  let chars_desc := String.intercalate "; "
    (p.characters.filterMap (fun c =>
      if c.name ≠ "" || c.role ≠ "" then
        some (pyStrip (pyStrip c.name ++ " (" ++ pyStrip c.role ++ ")"))
      else none))
  pyStrip (text ++ "（cover full content for this task）\n" ++
    "- Length: " ++ p.length ++ "\n- Year: " ++ p.year ++
    "\n- Genre: " ++ genre ++ "\n- Style: " ++ p.style ++
    "\n- Title: " ++ p.title_text ++ "\n- Characters: " ++ chars_desc ++
    "\n- Extra: " ++ p.extra_notes)

/-- `_build_novel_t1_t4`: the mandatory first four novel-mode subtasks. -/
def build_novel_t1_t4 (profile : Option NovelProfile) : List RawSubtask :=
  let p := profile.getD {}
  [{ id_alt := "t1", title := "Research", status := "pending",
     notes := "Research for genre/time/style context",
     description := novelDesc p "Research the genre, time setting, and target style." },
   { id_alt := "t2", title := "人物设定", status := "pending",
     notes := "Character roster",
     description := novelDesc p "List and refine character names and roles." },
   { id_alt := "t3", title := "情节设计", status := "pending",
     notes := "Plot arcs",
     description := novelDesc p "Design main plot arcs consistent with the brief." },
   { id_alt := "t4", title := "章节分配 & 小说概要撰写", status := "pending",
     notes := "Chapter plan and synopsis",
     description := novelDesc p ("作为一位资深作家指导新人，请为每个章节制定详细的写作指南。\n\n" ++
       "对于每个章节，请用以下格式描述：\n" ++
       "【章节X】标题\n" ++
       "- 详细情节内容：（具体描述本章要发生什么，人物如何互动，情节如何推进）\n" ++
       "- 文笔风格：（本章应该采用什么样的叙述方式，如：紧张悬疑/温馨抒情/快节奏动作等）\n" ++
       "- 侧重点：（本章的核心目标是什么，如：人物性格塑造/情节转折/氛围营造/冲突升级等）\n" ++
       "- 写作建议：（给新人作家的具体建议，如需要注意的细节、避免的陷阱、推荐的写作技巧等）\n\n" ++
       "最后生成一份简明的小说整体概要（synopsis）。") }]

/-- `Subtask(**raw)` applied to a `_build_novel_t1_t4` dictionary (keys
`id`, `title`, `status`, `notes`, `description`). -/
def subtaskOfNovelRaw (r : RawSubtask) : Subtask :=
  { id := r.id_alt, title := r.title, status := r.status,
    notes := r.notes, description := r.description }

/-- `_format_novel_profile_context`. -/
def format_novel_profile_context (profile : Option NovelProfile) : String :=
  let p := profile.getD {}
  let genre := if p.genre ≠ "" then p.genre else p.other_genres
  let parts : List String :=
    (if p.length ≠ "" then ["Length: " ++ p.length] else []) ++
    (if p.year ≠ "" then ["Year: " ++ p.year] else []) ++
    (if genre ≠ "" then ["Genre: " ++ genre] else []) ++
    (if p.style ≠ "" then ["Style: " ++ p.style] else []) ++
    (if p.title_text ≠ "" then ["Title: " ++ p.title_text] else []) ++
    (let formatted := p.characters.filterMap (fun c =>
        let name := pyStrip c.name
        let role := pyStrip c.role
        if name = "" && role = "" then none
        else some (pyStrip (name ++ " (" ++ role ++ ")")))
     if formatted ≠ [] then ["Characters: " ++ String.intercalate ", " formatted] else []) ++
    (if p.extra_notes ≠ "" then ["Extra: " ++ p.extra_notes] else [])
  joinNL parts

/-- `subtask.output or subtask.notes or ""`. -/
def subContent (sub : Subtask) : String :=
  if sub.output ≠ "" then sub.output else sub.notes

/-- `_update_novel_summary`: compute and cache the t1–t4 summary.
`withStore` is whether an artifact store was passed. -/
def update_novel_summary (o : Oracles) (withStore : Bool) (st : OState)
    (plan : Plan) : OState :=
  if !st.extra.novel_mode then st
  else
    let firstFour := plan.subtasks.take 4
    let lines0 := firstFour.filterMap (fun sub =>
      if subContent sub ≠ "" then
        some (sub.id ++ " " ++ sub.title ++ ": " ++ subContent sub)
      else none)
    let t4alloc := ((firstFour.filter
        (fun sub => subContent sub ≠ "" && sub.id = "t4")).getLast?).map subContent
    let profile_ctx := format_novel_profile_context st.extra.novel_profile
    let lines := if profile_ctx ≠ "" then ("Profile:\n" ++ profile_ctx) :: lines0 else lines0
    let summary := pyStrip (joinNL lines)
    let extra1 := { st.extra with
      novel_summary_t1_t4 := summary,
      t4_detailed_chapter_allocations :=
        t4alloc.getD st.extra.t4_detailed_chapter_allocations }
    let ref := o.artifact_path summary
    let extra2 :=
      if withStore && summary ≠ "" && st.session_id ≠ "" then
        { extra1 with novel_summary_artifact := some (ref, "Novel mode t1-t4 summary") }
      else extra1
    { st with extra := extra2 }

/-- `_format_novel_summary_block`. -/
def format_novel_summary_block (summary : String) : Option String :=
  let trimmed := pyStrip summary
  if trimmed = "" then none else some ("Novel summary (t1-t4):\n" ++ trimmed)

/-- `_format_novel_summary_artifact_block` (payload = (path, description)). -/
def format_novel_summary_artifact_block (payload : Option (String × String)) :
    Option String :=
  match payload with
  | none => none
  | some (path, desc) =>
    if path = "" then none
    else some ("Novel summary artifact: " ++ path ++
      (if desc ≠ "" then " (" ++ desc ++ ")" else ""))

/-- `_format_recent_worker_outputs_context`. -/
def format_recent_worker_outputs_context (st : OState) : Option String :=
  let outputs := st.extra.recent_worker_outputs
  if outputs = [] then none
  else
    let lastThree := outputs.drop (outputs.length - 3)
    let lines := ["Recent worker outputs (latest first):"] ++
      lastThree.flatMap (fun entry =>
        [entry.subtask_id ++ ": " ++ entry.title ++
          (if entry.artifact_path ≠ "" then
            " (artifact: " ++ entry.artifact_path ++ ")" else "")] ++
        (if entry.preview ≠ "" then ["Preview:\n" ++ entry.preview] else []))
    some (joinPara lines)

/-- `_format_novel_inflight_batch_context`. -/
def format_novel_inflight_batch_context (info : Option InflightBatch) :
    Option String :=
  match info with
  | none => none
  | some b =>
    let parts : List String :=
      (if b.batch_id ≠ "" then ["Reviewer batch in-flight: " ++ b.batch_id] else []) ++
      (if b.summary ≠ "" then ["Batch context:\n" ++ b.summary] else []) ++
      (if b.reason ≠ "" then ["Reviewer reason:\n" ++ b.reason] else []) ++
      (if b.decision ≠ "" then ["Decision: " ++ b.decision] else [])
    if parts = [] then none else some (joinPara parts)

/-- `_cache_reviewer_revision_entry`. -/
def cache_reviewer_revision_entry (st : OState) (subtaskId text batchId
    artifactPath : String) : OState :=
  if subtaskId = "" || text = "" then st
  else
    let entry := ((st.extra.reviewer_revisions.lookup subtaskId).getD {})
    let entry1 := { entry with
      batch_id := if batchId ≠ "" then batchId else entry.batch_id,
      text := text }
    let entry2 :=
      if artifactPath ≠ "" then { entry1 with artifact_path := artifactPath }
      else entry1
    { st with extra := { st.extra with
        reviewer_revisions := assocSet st.extra.reviewer_revisions subtaskId entry2 } }

/-- `_record_recent_worker_output`. -/
def record_recent_worker_output (st : OState) (sub : Subtask)
    (workerOutput artifactPath : String) : OState :=
  let preview :=
    if workerOutput.length > 400 then workerOutput.take 400 ++ "..."
    else workerOutput
  let outputs := st.extra.recent_worker_outputs ++
    [{ subtask_id := sub.id, title := sub.title, preview := preview,
       artifact_path := artifactPath }]
  let outputs := if outputs.length > 3 then outputs.drop (outputs.length - 3) else outputs
  { st with extra := { st.extra with recent_worker_outputs := outputs } }

/-- Python truthiness of an `Optional[str]`. -/
def optTruthy (s : Option String) : Bool :=
  match s with
  | none => false
  | some v => v ≠ ""

/-- `_novel_extra_context`. -/
def novel_extra_context (st : OState) (sub : Subtask) : Option String :=
  if !st.extra.novel_mode then none
  else
    let profile_ctx := format_novel_profile_context st.extra.novel_profile
    let summary_block := format_novel_summary_block st.extra.novel_summary_t1_t4
    let artifact_block := format_novel_summary_artifact_block st.extra.novel_summary_artifact
    let inflight_block := format_novel_inflight_batch_context st.extra.novel_inflight_batch
    let recent_block := format_recent_worker_outputs_context st
    let base : List (Option String) :=
      if sub.id = "t1" || sub.id = "t2" || sub.id = "t3" || sub.id = "t4" then
        [some profile_ctx, summary_block, artifact_block]
      else
        [summary_block, artifact_block, some profile_ctx]
    let sections := base ++
      (if optTruthy inflight_block then [inflight_block] else []) ++
      (if optTruthy recent_block then [recent_block] else [])
    let context := pyStrip (joinPara (sections.filterMap (fun s =>
      match s with
      | some v => if v ≠ "" then some v else none
      | none => none)))
    if context ≠ "" then some context else none

/-! ## Plan queries (`Orchestrator` helpers) -/

/-- `_find_subtask_index`. -/
def find_subtask_index (plan : Plan) (subtaskId : String) : Option Nat :=
  plan.subtasks.findIdx? (fun sub => sub.id = subtaskId)

/-- `_find_subtask`. -/
def find_subtask (plan : Plan) (subtaskId : String) : Option Subtask :=
  plan.subtasks.find? (fun sub => sub.id = subtaskId)

/-- The numeric value of a subtask id of the shape `t<digits>`
(`id.startswith("t") and id[1:].isdigit()` / `int(id[1:])`). -/
def idNum (s : String) : Option Nat :=
  match s.data with
  | 't' :: rest =>
    if rest ≠ [] && rest.all Char.isDigit then some (parseDigits rest) else none
  | _ => none

/-- `_generate_subtask_id`: `t` followed by one plus the maximal numeric
suffix among existing `t<digits>` ids (`max(existing_nums, default=0) + 1`). -/
def generate_subtask_id (plan : Plan) : String :=
  let existing_nums := plan.subtasks.filterMap (fun sub => idNum sub.id)
  ⟨'t' :: natDigits (existing_nums.foldr max 0 + 1)⟩

/-- `_is_subtask_complete`. -/
def is_subtask_complete (sub : Subtask) : Bool :=
  sub.status = "done" || sub.status = "skipped"

/-- `_next_pending_subtask`. -/
def next_pending_subtask (plan : Plan) : Option Subtask :=
  plan.subtasks.find? (fun sub => !is_subtask_complete sub)

/-- `_has_pending_subtasks`. -/
def has_pending_subtasks (plan : Plan) : Bool :=
  plan.subtasks.any (fun sub => !is_subtask_complete sub)

/-- `_update_novel_phase_step` (with `increment=0` the key is only
materialised, which the typed `Extra` already guarantees). -/
def update_novel_phase_step (st : OState) (increment : Nat) : OState :=
  if increment ≠ 0 then
    { st with extra := { st.extra with
        novel_phase_step := st.extra.novel_phase_step + increment } }
  else st

instance : Inhabited Subtask := ⟨{ id := "", title := "" }⟩

/-- Replace the first subtask whose id is `sid` (in-place mutation of the
object `_find_subtask` returned). -/
def updateFirstById (plan : Plan) (sid : String) (f : Subtask → Subtask) : Plan :=
  match find_subtask_index plan sid with
  | none => plan
  | some i => { plan with subtasks := plan.subtasks.set i (f (plan.subtasks.get! i)) }

/-! ## Reviewer batching (`Orchestrator`) -/

/-- `_build_reviewer_batch_context`. -/
def build_reviewer_batch_context (st : OState) : Option String :=
  let batch := st.extra.reviewer_batch_tasks
  if batch = [] then none
  else
    some (joinPara (batch.flatMap (fun entry =>
      [entry.subtask_id ++ ": " ++ entry.title ++
        (if entry.artifact_path ≠ "" then
          " (artifact: " ++ entry.artifact_path ++ ")" else "")] ++
      (if entry.worker_output_preview ≠ "" then
        ["Preview:\n" ++ entry.worker_output_preview] else []))))

/-- `_finalize_reviewer_batch`: allocate the next batch id, bump the
counter, record the in-flight info and batch note, cache a revision entry
per member (the revised text is attributed to the last member), and empty
the pending batch.  Returns the new state and the batch id. -/
def finalize_reviewer_batch (st : OState) (batchTasks : List BatchEntry)
    (batchContext decision reason : String) (revisedText : Option String) :
    OState × String :=
  let counter := st.extra.reviewer_batch_counter
  let batchId := "batch_" ++ natRepr (counter + 1)
  let inflight : InflightBatch :=
    { batch_id := batchId, summary := batchContext, reason := reason,
      decision := decision }
  let note_lines := ["Reviewer batch " ++ batchId ++ " summary:"] ++
    (if decision ≠ "" then ["Decision: " ++ decision] else []) ++
    (if reason ≠ "" then ["Reason: " ++ reason] else []) ++
    (if batchContext ≠ "" then ["Context:\n" ++ batchContext] else [])
  let st1 := { st with extra := { st.extra with
    reviewer_batch_counter := counter + 1,
    novel_inflight_batch := some inflight,
    reviewer_revisions_batch := pyStrip (joinNL note_lines) } }
  let primary := (batchTasks.getLast?).map (fun e => e.subtask_id)
  let revisedTruthy := optTruthy revisedText
  let st2 := batchTasks.foldl
    (fun acc entry =>
      if entry.subtask_id = "" then acc
      else
        let entry_reason :=
          if revisedTruthy && some entry.subtask_id = primary then
            revisedText.getD ""
          else reason
        cache_reviewer_revision_entry acc entry.subtask_id entry_reason
          batchId entry.artifact_path)
    st1
  ({ st2 with extra := { st2.extra with reviewer_batch_tasks := [] } }, batchId)

/-- `_enqueue_reviewer_batch_task`: append the output to the pending batch
and report whether the batch reached the size-3 threshold. -/
def enqueue_reviewer_batch_task (st : OState) (sub : Subtask)
    (workerOutput artifactRefPath : String) : OState × Bool :=
  let batch := st.extra.reviewer_batch_tasks ++
    [{ subtask_id := sub.id, title := sub.title,
       artifact_path := artifactRefPath,
       worker_output_preview := workerOutput.take 400 }]
  ({ st with extra := { st.extra with reviewer_batch_tasks := batch } },
   batch.length ≥ 3)

/-- The result of `_call_coordinator`: the reviewer reply, the extra context
string passed into `build_coordinator_review_prompt`, and the updated
state. -/
structure CallCoordinator where
  reply : String
  extra_ctx : Option String
  state : OState
deriving Repr

/-- `_call_coordinator`: in strict novel mode, when the batch counter is a
positive multiple of 5, reset the counter to 0 and pass only the cached
t1–t4 summary as context; otherwise pass the full novel context.  A batch
context, when given, is joined on. -/
def call_coordinator (o : Oracles) (sub : Subtask) (workerOutput : String)
    (st : OState) (batchContext : Option String) : CallCoordinator :=
  let strict_novel := st.extra.novel_mode
  let counter := st.extra.reviewer_batch_counter
  let reset := strict_novel && counter ≠ 0 && counter % 5 = 0
  let st1 :=
    if reset then
      { st with extra := { st.extra with reviewer_batch_counter := 0 } }
    else st
  let base : Option String :=
    if reset then some st.extra.novel_summary_t1_t4
    else novel_extra_context st1 sub
  let extra_ctx :=
    if optTruthy base && optTruthy batchContext then
      some ((base.getD "") ++ "\n\n" ++ (batchContext.getD ""))
    else if optTruthy batchContext then batchContext
    else base
  { reply := o.coordinator_review sub.id workerOutput extra_ctx strict_novel,
    extra_ctx := extra_ctx, state := st1 }

/-! ## Planner-result merging and the stub planner -/

/-- The per-candidate warning recorded by `_apply_planner_result_to_state`
when a post-t4 novel-mode candidate fails the structural rule. -/
def skippedChapterWarning (sub_id : String) : String :=
  "Skipped planner chapter " ++ sub_id ++
    " because title must include \x27Chapter \x7bn\x7d\x27 and description must contain \x27" ++
    CHAPTER_FULL_CONTENT ++ "\x27."

/-- `_apply_planner_result_to_state`: merge a `PlannerResult` into a fresh
`Plan` (in novel mode: seed t1–t4, deduplicate by id, validate and
normalise post-t4 chapter candidates, record warnings, and fall back to two
default subtasks when nothing remains). -/
def apply_planner_result_to_state (st : OState) (result : PlannerResult)
    (fallback_user_text : String) (existing_plan : Option Plan)
    (novel_profile : Option NovelProfile) : Plan :=
  let pd := result.plan.getD ("", "", "", "")
  let plan_id := if pd.1 ≠ "" then pd.1 else
    match existing_plan with
    | some ep => ep.plan_id
    | none => "plan-" ++ st.session_id
  let title := if pd.2.1 ≠ "" then pd.2.1 else
    match existing_plan with
    | some ep => ep.title
    | none => "Writing Project"
  let description := if pd.2.2.1 ≠ "" then pd.2.2.1 else
    match existing_plan with
    | some ep => ep.description
    | none => ""
  let notes := if pd.2.2.2 ≠ "" then pd.2.2.2 else
    match existing_plan with
    | some ep => ep.notes
    | none => ""
  let novel_mode := st.extra.novel_mode
  let base := if novel_mode then build_novel_t1_t4 novel_profile else []
  let mergedAcc := (base ++ result.subtasks).foldl
    (fun (acc : List RawSubtask × List String) raw =>
      let sub_id0 := raw.effId
      let sub_id := if sub_id0 ≠ "" then sub_id0 else "t" ++ natRepr (acc.2.length + 1)
      if acc.2.contains sub_id then acc
      else (acc.1 ++ [{ raw with subtask_id := sub_id, id_alt := sub_id }],
            acc.2 ++ [sub_id]))
    ([], [])
  let merged := if mergedAcc.1 = [] then result.subtasks else mergedAcc.1
  let built := merged.foldl
    (fun (acc : Nat × List String × List Subtask) raw =>
      let idx := acc.1
      let sub_id := if raw.effId ≠ "" then raw.effId else "t" ++ natRepr idx
      let title := if raw.title ≠ "" then raw.title else "Subtask " ++ natRepr idx
      let status := if raw.status ≠ "" then raw.status else "pending"
      if novel_mode && idx > 4 && !is_valid_chapter_candidate raw then
        (idx + 1, acc.2.1 ++ [skippedChapterWarning sub_id], acc.2.2)
      else
        let fields :=
          if novel_mode && idx > 4 then
            let normalized := normalize_chapter_subtask raw idx
            (normalized.subtask_id, normalized.title, normalized.description,
             normalized.status, normalized.notes, normalized.metadata)
          else (sub_id, title, raw.description, status, raw.notes, raw.metadata)
        let built : Subtask :=
          { id := fields.1
            title := fields.2.1
            status := pyLower fields.2.2.2.1
            notes := fields.2.2.2.2.1
            output := ""
            needs_redo := false
            description := fields.2.2.1
            metadata := fields.2.2.2.2.2 }
        (idx + 1, acc.2.1, acc.2.2 ++ [built]))
    (1, [], [])
  let warning_lines := built.2.1
  let new_subtasks0 := built.2.2
  let new_subtasks :=
    if new_subtasks0 = [] then
      [{ id := "t1", title := "Outline: " ++ fallback_user_text,
         description := "Create a high-level outline based on the latest user input.",
         status := "pending", notes := "auto-generated fallback" },
       { id := "t2", title := "Write the first section draft",
         description := "Draft the opening section based on the outline.",
         status := "pending", notes := "auto-generated fallback" }]
    else new_subtasks0
  let notes' :=
    if warning_lines ≠ [] then pyStrip (notes ++ "\n" ++ joinNL warning_lines)
    else notes
  { plan_id := plan_id, title := title, description := description,
    notes := notes', subtasks := new_subtasks }

/-- `Plan.from_outline`: crude line-based outline parsing (`plan_id` is the
freshly minted uuid-based id, passed in). -/
def planFromOutline (plan_id topic outline : String) : Plan :=
  let bullets : List Char := "-*•0123456789. ".data
  let lines := (pySplitLines outline).filterMap (fun raw =>
    let line := pyStrip raw
    if line = "" then none
    else if pyStartsWith line "#" || strContains line "大纲" then none
    else
      let cleaned := pyStrip ⟨line.data.dropWhile (fun c => bullets.contains c)⟩
      if cleaned ≠ "" then some cleaned else none)
  { plan_id := plan_id, title := topic,
    subtasks := lines.enum.map (fun p =>
      { id := "t" ++ natRepr (p.1 + 1), title := p.2 }) }

/-- `generate_stub_plan_from_planning_input`. -/
def generate_stub_plan_from_planning_input (plan : Plan) (user_text : String)
    (novel_profile : Option NovelProfile) (chapter_batch_size : Nat := 3) : Plan :=
  let text := pyStrip user_text
  if text = "" then plan
  else
    let novel_mode := novel_profile.isSome
    let plan1 :=
      if plan.subtasks = [] then
        { plan with
          title := if plan.title ≠ "" then plan.title else "写一个长篇小说",
          notes := pyStrip (if plan.notes ≠ "" then plan.notes else "stub planner"),
          subtasks :=
            if novel_mode then (build_novel_t1_t4 novel_profile).map subtaskOfNovelRaw
            else
              [{ id := "t1", title := "确定小说的主题和整体思想", status := "pending" },
               { id := "t2", title := "设计主要人物角色和基本设定", status := "pending" }] }
      else plan
    let plan2 := { plan1 with notes := pyStrip (plan1.notes ++ "\n[用户补充] " ++ text) }
    let batch_count := if novel_mode then max 1 chapter_batch_size else 1
    (List.range batch_count).foldl
      (fun pacc batch_idx =>
        let next_id_num := pacc.subtasks.length + 1
        let chapter_index := max 1 (next_id_num - 4)
        let title_suffix :=
          if batch_count > 1 then "（续 " ++ natRepr (batch_idx + 1) ++ "）" else ""
        let rule_title := "根据补充要求：" ++ text ++ title_suffix
        let raw : RawSubtask :=
          { subtask_id := "t" ++ natRepr next_id_num,
            title := if novel_mode then chapter_title chapter_index rule_title
              else rule_title,
            description := chapter_description text,
            notes := "来自规划对话的最新需求",
            status := "pending" }
        let normalized :=
          if novel_mode then normalize_chapter_subtask raw next_id_num else raw
        { pacc with subtasks := pacc.subtasks ++
            [{ id := normalized.subtask_id, title := normalized.title,
               status := if normalized.status ≠ "" then normalized.status else "pending",
               notes := normalized.notes, description := normalized.description,
               needs_redo := false, metadata := normalized.metadata }] })
      plan2

/-- Result of `_append_chapter_tasks_from_planner_stub`: the (mutated) plan
and state, plus how many chapter subtasks were appended. -/
structure ChapterExpansion where
  plan : Plan
  state : OState
  added : Nat
deriving Repr, DecidableEq

/-- The relaxed sanitisation pass of `_append_chapter_tasks_from_planner_stub`:
keep the outline subtasks whose title mentions `chapter`/`Chapter`/`章`,
renumbering them after the existing plan. -/
def relaxed_chapter_candidates (base_count : Nat) (subs : List Subtask) :
    List RawSubtask :=
  subs.foldl
    (fun (acc : List RawSubtask) sub =>
      let title := sub.title
      let has_chapter := strContains (pyLower title) "chapter" ||
        strContains title "章" || strContains title "Chapter"
      if !has_chapter then acc
      else
        let desc := if sub.description ≠ "" then sub.description
          else chapter_description title
        acc ++ [{ subtask_id := "t" ++ natRepr (base_count + acc.length + 1),
                  title := title, status := "pending",
                  description := desc, notes := sub.notes }])
    []

/-- The deterministic fallback candidate list of
`_append_chapter_tasks_from_planner_stub` (used when the relaxed pass keeps
nothing): `chapter_count` (profile value, default 5) generic chapters. -/
def fallback_chapter_candidates (base_count : Nat)
    (profile : Option NovelProfile) : List RawSubtask :=
  let chapter_count := (profile.bind (fun p => p.chapter_count)).getD 5
  (List.range chapter_count).map (fun i =>
    ({ subtask_id := "t" ++ natRepr (base_count + i + 1),
       title := "Chapter " ++ natRepr (i + 1), status := "pending",
       description := chapter_description ("Chapter " ++ natRepr (i + 1)),
       notes := "Auto-generated chapter task (planner fallback)" } : RawSubtask))

/-- `_append_chapter_tasks_from_planner_stub`: after t4, call the planner
for an outline, keep relaxed-check chapter candidates (title mentions
`chapter`/`Chapter`/`章`), fall back to a default chapter list when none
survive, run the merged result through `_apply_planner_result_to_state`
(strict validation and normalisation), and append the subtasks whose ids
are new. -/
def append_chapter_tasks_from_planner_stub (o : Oracles) (plan : Plan)
    (st : OState) : ChapterExpansion :=
  if !st.extra.novel_mode then ⟨plan, st, 0⟩
  else
    let st := addProgressEvent st "planner" "chapter_expansion" "start"
    let summary := st.extra.novel_summary_t1_t4
    let profile := st.extra.novel_profile
    let topic := if plan.title ≠ "" then plan.title else "Novel Story"
    let outline := o.planner_outline topic
    let stub_plan := planFromOutline o.new_plan_id topic outline
    let base_count := plan.subtasks.length
    let sanitized0 := relaxed_chapter_candidates base_count stub_plan.subtasks
    let sanitized :=
      if sanitized0 = [] then fallback_chapter_candidates base_count profile
      else sanitized0
    let planner_result : PlannerResult :=
      { plan := some (stub_plan.plan_id, stub_plan.title, stub_plan.description,
          stub_plan.notes),
        subtasks := sanitized }
    let updated_plan := apply_planner_result_to_state st planner_result summary
      (some plan) profile
    let existing_ids := plan.subtasks.map (fun s => s.id)
    let appended := updated_plan.subtasks.foldl
      (fun (acc : List Subtask) ns =>
        if existing_ids.contains ns.id || (acc.map (fun s => s.id)).contains ns.id then acc
        else acc ++ [ns])
      []
    let added := appended.length
    let plan' := { plan with subtasks := plan.subtasks ++ appended }
    if added ≠ 0 then
      let st1 := update_novel_phase_step st added
      let st2 := addProgressEvent st1 "planner" "chapter_expansion" "finish"
      ⟨plan', st2, added⟩
    else
      ⟨plan', st, 0⟩

/-! ## Orchestrator-event consumption (`consume_orchestrator_events`) -/

/-- Python `str(i)` for an integer. -/
def intRepr (i : Int) : String :=
  if i < 0 then "-" ++ natRepr i.natAbs else natRepr i.toNat

/-- Python `str(target)` / f-string rendering of a target value. -/
def strOfTarget : EvTarget → String
  | .noneT => "None"
  | .intT i => intRepr i
  | .strT s => s

/-- Resolve an event target against the plan: an in-range integer index, or
the first subtask with the given string id. -/
def findTargetIdx (plan : Plan) : EvTarget → Option Nat
  | .noneT => none
  | .intT i =>
    if 0 ≤ i && i < (plan.subtasks.length : Int) then some i.toNat else none
  | .strT s => plan.subtasks.findIdx? (fun sub => sub.id = s)

/-- Accumulator for the event-consumption loop. -/
structure ConsumeAcc where
  state : OState
  plan : Plan
  newEvents : List OrchEvent
deriving Repr

/-- One iteration of the `consume_orchestrator_events` loop. -/
def consumeOneEvent (o : Oracles) (acc : ConsumeAcc) (ev : OrchEvent) : ConsumeAcc :=
  let payloadKind := if ev.raw_kind ≠ "" then ev.raw_kind else ev.kind
  let kind := normalize_event_kind payloadKind
  if kind = "REQUEST_CONTENT_CHANGE" then
    let target := ev.target_subtask_id
    let instr := ev.instructions
    let found := findTargetIdx acc.plan target
    let plan' :=
      match found with
      | some idx =>
        let sub := acc.plan.subtasks.get! idx
        let sub1 := { sub with needs_redo := true }
        let sub2 :=
          if instr ≠ "" then
            { sub1 with notes := pyStrip (sub1.notes ++ "\n" ++ "[redo request] " ++ instr) }
          else sub1
        { acc.plan with subtasks := acc.plan.subtasks.set idx sub2 }
      | none => acc.plan
    let label :=
      match found with
      | some idx =>
        let sub := acc.plan.subtasks.get! idx
        if sub.id ≠ "" then sub.id else natRepr idx
      | none => strOfTarget target
    let confirmation := "Got it. Triggering a redo for subtask " ++ label ++
      " with instructions: " ++
      (if instr ≠ "" then instr else "(no specific instructions provided)")
    { state := addMessage acc.state "orchestrator" confirmation,
      plan := plan',
      newEvents := acc.newEvents ++
        [{ kind := "TRIGGER_REDO", target_subtask_id := target, instructions := instr }] }
  else if kind = "REQUEST_PLAN_UPDATE" then
    let instr := ev.instructions
    let updated :=
      if o.use_real_planner then
        apply_planner_result_to_state acc.state (o.planner_agent instr) instr
          (some acc.plan) acc.state.extra.novel_profile
      else
        generate_stub_plan_from_planning_input acc.plan instr
          acc.state.extra.novel_profile
    let plan' := { acc.plan with
                   notes := updated.notes
                   title := updated.title
                   description := updated.description
                   subtasks := updated.subtasks }
    let msg := "Planner will redo the plan based on your request: " ++
      (if instr ≠ "" then instr else "(no details provided)")
    { acc with
      plan := plan'
      state := addMessage acc.state "orchestrator" msg }
  else if kind = "REQUEST_OTHER" then
    let st' := addMessage acc.state "orchestrator" "Understood. (General request acknowledged.)"
    { acc with state := st' }
  else if kind = "TRIGGER_REDO" then
    let target := ev.target_subtask_id
    let instr := ev.instructions
    match findTargetIdx acc.plan target with
    | some idx =>
      let sub := acc.plan.subtasks.get! idx
      let st1 := addProgressEvent acc.state "worker" sub.id "start"
      let worker_output := run_worker_for_subtask sub instr
      let sub1 := { sub with output := worker_output, needs_redo := false }
      let plan1 := { acc.plan with subtasks := acc.plan.subtasks.set idx sub1 }
      let st2 := update_novel_summary o false st1 plan1
      let st3 := addProgressEvent st2 "worker" sub.id "finish"
      let st4 := addProgressEvent st3 "reviewer" sub.id "start"
      let review := run_reviewer_on_output
      let decision := pyLower review.1
      let notes := review.2.1
      let st5 := addProgressEvent st4 "reviewer" sub.id "finish"
      let sub2 := { sub1 with notes := if notes ≠ "" then notes else sub1.notes }
      let sub3 :=
        if decision = "redo" then { sub2 with status := "pending", needs_redo := true }
        else { sub2 with status := "done", needs_redo := false }
      let plan2 := { plan1 with subtasks := plan1.subtasks.set idx sub3 }
      let final_text := "I’ve rewritten subtask " ++ sub.id ++
        " based on your instructions.\n\nUpdated version:\n" ++ worker_output ++
        "\n\nReviewer notes:\n" ++ (if notes ≠ "" then notes else "accept")
      { state := addMessage st5 "orchestrator" final_text
        plan := plan2
        newEvents := acc.newEvents }
    | none =>
      let final_text := "I’ve rewritten subtask " ++ strOfTarget target ++
        " based on your instructions.\n\nUpdated version:\n" ++ "" ++
        "\n\nReviewer notes:\n" ++ "accept"
      { acc with state := addMessage acc.state "orchestrator" final_text }
  else
    let label := if payloadKind ≠ "" then payloadKind else kind
    let st' := addMessage acc.state "orchestrator" ("Unhandled event type: " ++ label)
    { acc with state := st' }

/-- `consume_orchestrator_events`: process the queued events against plan
and state; the queue is replaced by the `TRIGGER_REDO` events enqueued by
content-change handling during this pass. -/
def consume_orchestrator_events (o : Oracles) (st : OState) (plan : Plan) :
    OState × Plan :=
  let acc := st.orch_events.foldl (consumeOneEvent o) ⟨st, plan, []⟩
  ({ acc.state with orch_events := acc.newEvents }, acc.plan)

/-- `run_orchestrator_turn`: classify the user text through the intent
agent, queue the structured event, and log the classification message. -/
def run_orchestrator_turn (o : Oracles) (st : OState) (user_text : String) : OState :=
  let text := pyStrip user_text
  if text = "" then st
  else
    let action := o.intent text
    let st1 := { st with orch_events := st.orch_events ++
      [{ kind := action.kind, raw_kind := action.raw_kind,
         target_subtask_id := action.target_subtask_id,
         instructions := action.instructions }] }
    addMessage st1 "orchestrator"
      ("[intent-parser] Classified user request as " ++ action.kind ++
        (if action.raw_kind ≠ "" && action.raw_kind ≠ action.kind then
          " (raw: " ++ action.raw_kind ++ ")" else ""))

/-! ## Out-of-band redo triggering (`_auto_trigger_redo_from_logs`) -/

/-- The latest `coord_decision` entry retained per subtask id. -/
structure LatestInfo where
  decision : String
  reason : String
  timestamp : String
deriving Repr, DecidableEq

/-- The latest `coord_decision` per subtask id, in first-seen order
(consumers take the maximal timestamp; on equal timestamps the earlier
entry is kept). -/
def latestRedoDecisions (log : List Envelope) : List (String × LatestInfo) :=
  log.foldl
    (fun acc env =>
      if pyLower env.payload_type ≠ "coord_decision" then acc
      else if env.subtask_id = "" then acc
      else
        let info : LatestInfo :=
          { decision := pyLower env.decision, reason := env.reason,
            timestamp := env.timestamp }
        match acc.lookup env.subtask_id with
        | some existing =>
          if strGe existing.timestamp env.timestamp then acc
          else assocSet acc env.subtask_id info
        | none => acc ++ [(env.subtask_id, info)])
    []

/-- The `TRIGGER_REDO` events `_auto_trigger_redo_from_logs` would enqueue,
together with the updated processed-redo watermark map. -/
def computeNewRedoEvents (log : List Envelope) (st : OState) :
    List OrchEvent × List (String × String) :=
  let latest := latestRedoDecisions log
  let existing_targets := st.orch_events.filterMap (fun ev =>
    if ev.kind = "TRIGGER_REDO" then some (strOfTarget ev.target_subtask_id)
    else none)
  latest.foldl
    (fun (acc : List OrchEvent × List (String × String)) p =>
      let sub_id := p.1
      let info := p.2
      let ts := info.timestamp
      if info.decision ≠ "redo" then acc
      else if ts ≠ "" && strGe ((acc.2.lookup sub_id).getD "") ts then acc
      else if existing_targets.contains sub_id then
        (acc.1, assocSet acc.2 sub_id
          (if ts ≠ "" then ts else (acc.2.lookup sub_id).getD ""))
      else
        let instructions :=
          if info.reason ≠ "" then info.reason
          else "Redo requested by reviewer at " ++ (if ts ≠ "" then ts else "latest")
        let events := acc.1 ++
          [{ kind := "TRIGGER_REDO", target_subtask_id := .strT sub_id,
             instructions := instructions }]
        if ts ≠ "" then (events, assocSet acc.2 sub_id ts) else (events, acc.2))
    ([], st.extra.processed_redo_decisions)

/-- `_auto_trigger_redo_from_logs`: when the latest `coord_decision` log
entries contain an unprocessed REDO, enqueue `TRIGGER_REDO` events, persist
the watermark, and consume them immediately. -/
def auto_trigger_redo_from_logs (o : Oracles) (plan : Plan) (st : OState)
    (log : List Envelope) : Plan × OState :=
  let computed := computeNewRedoEvents log st
  if computed.1 = [] then (plan, st)
  else
    let st1 := { st with
                 orch_events := st.orch_events ++ computed.1
                 extra := { st.extra with processed_redo_decisions := computed.2 } }
    let consumed := consume_orchestrator_events o st1 plan
    (consumed.2, consumed.1)

/-- The observable result of one `execute_command` call: the session after
the command (plan, state, log), the response `message`/`ok`, and the labels
of background tasks scheduled by this command (`_start_background_task`). -/
structure ExecResult where
  sess : Sess
  message : String
  ok : Bool
  scheduled : List String
deriving Repr, DecidableEq

/-- `_render_session_snapshot` composed with the branch result: the auto
redo hook runs on plan/state, the snapshot itself is a read, and the
response carries `message`/`ok`. -/
def finishExec (o : Oracles) (plan : Plan) (st : OState) (log : List Envelope)
    (message : String) (ok : Bool) (scheduled : List String) : ExecResult :=
  let hooked := auto_trigger_redo_from_logs o plan st log
  { sess := { plan := hooked.1, state := hooked.2, log := log },
    message := message, ok := ok, scheduled := scheduled }

/-! ## Automatic review of one worker output (`run_next_pending_subtask`,
auto mode, lines 1836–1900) -/

/-- The note a subtask is accepted with while its output waits for the
batch to fill. -/
def WAITING_NOTE : String := "等待批次满 3 个任务后再复核。"

/-- Result of the auto-review slice: the parsed decision/reason/revision,
the number of reviewer (coordinator) invocations made, and the updated
state. -/
structure ReviewDecision where
  decision : String
  reason : String
  revised_text : Option String
  reviewer_calls : Nat
  state : OState
deriving Repr

/-- The auto-mode (non-interactive) review of one worker output: in batch
mode the output is enqueued and the reviewer is invoked only when the batch
reaches 3, finalising and emptying the batch; otherwise the reviewer is
invoked directly and any revised text is cached. -/
def auto_review_decision (o : Oracles) (sub : Subtask)
    (workerOutput artifactPath : String) (st : OState) : ReviewDecision :=
  let batch_mode :=
    !(sub.id = "t1" || sub.id = "t2" || sub.id = "t3" || sub.id = "t4") &&
      st.extra.novel_mode
  if batch_mode then
    let enq := enqueue_reviewer_batch_task st sub workerOutput artifactPath
    let st1 := enq.1
    if enq.2 then
      let batch_tasks := st1.extra.reviewer_batch_tasks
      let batch_context := (build_reviewer_batch_context st1).getD ""
      let cc := call_coordinator o sub workerOutput st1 (some batch_context)
      let parsed := parse_reviewer_response cc.reply
      let fin := finalize_reviewer_batch cc.state batch_tasks batch_context
        parsed.1 parsed.2.1 parsed.2.2
      { decision := parsed.1, reason := parsed.2.1, revised_text := parsed.2.2,
        reviewer_calls := 1, state := fin.1 }
    else
      { decision := "ACCEPT", reason := WAITING_NOTE, revised_text := none,
        reviewer_calls := 0, state := st1 }
  else
    let cc := call_coordinator o sub workerOutput st none
    let parsed := parse_reviewer_response cc.reply
    let reason :=
      if optTruthy parsed.2.2 && parsed.2.1 = "" then
        "Reviewer provided revised text."
      else parsed.2.1
    let st1 :=
      if optTruthy parsed.2.2 then
        cache_reviewer_revision_entry cc.state sub.id (parsed.2.2.getD "") ""
          artifactPath
      else cc.state
    { decision := parsed.1, reason := reason, revised_text := parsed.2.2,
      reviewer_calls := 1, state := st1 }

/-- Lines 1914–1923 plus the loop condition of `run_next_pending_subtask`:
apply a parsed decision to the subtask.  Returns the updated subtask,
whether the t4 chapter expansion fires (`ACCEPT` of `t4`), and whether the
worker/review loop terminates (`ACCEPT`). -/
def apply_review_outcome (decision reason : String) (sub : Subtask) :
    Subtask × Bool × Bool :=
  if decision = "ACCEPT" then
    ({ sub with status := "done", notes := reason }, sub.id = "t4", true)
  else
    ({ sub with status := "pending", notes := reason }, false, false)

/-- Fold `auto_review_decision` over a sequence of accumulated worker
outputs `(subtask, output, artifact path)`, counting reviewer
invocations. -/
def auto_review_fold (o : Oracles) (items : List (Subtask × String × String))
    (st : OState) : Nat × OState :=
  items.foldl
    (fun acc item =>
      let r := auto_review_decision o item.1 item.2.1 item.2.2 acc.2
      (acc.1 + r.reviewer_calls, r.state))
    (0, st)

/-! ## The command dispatcher (`execute_command`, `interactive_coordinator`
absent) -/

/-- The `patch` dictionary of `update_subtask` (`has_other_keys` records
whether the dictionary carried keys other than the three updatable
fields, which makes it non-empty without producing a change). -/
structure Patch where
  title : Option String := none
  notes : Option String := none
  status : Option String := none
  has_other_keys : Bool := false
deriving Repr, DecidableEq

/-- The command payload, with the keys `execute_command` reads.  String
fields defaulting to `""` are keys the code reads with `.get(k)` and tests
for truthiness; `Option` fields are keys whose explicit absence matters
(`payload.get("status", "pending")`, `payload.get("notes", "")`,
`payload.get("patch")`). -/
structure Payload where
  subtask_id : String := ""
  patch : Option Patch := none
  title : String := ""
  after_id : String := ""
  status : Option String := none
  notes : Option String := none
  reason : String := ""
  question : String := ""
  prompt : String := ""
deriving Repr, DecidableEq

/-- The orchestrator notice recorded when a structural edit hits the locked
plan. -/
def lockedEditNotice : String :=
  "The plan is locked. Direct plan editing commands are disabled in execution phase. " ++
    "Please describe the change you want in natural language, and I will update the plan for you."

/-- `Plan.to_brief_text`. -/
def planBriefText (plan : Plan) : String :=
  joinNL (["Plan: " ++ plan.title ++ " (id=" ++ plan.plan_id ++ ")"] ++
    (if plan.notes ≠ "" then ["Notes: " ++ plan.notes] else []) ++
    plan.subtasks.map (fun sub =>
      "- [" ++ sub.status ++ "] " ++ sub.id ++ ": " ++ sub.title ++
        (if sub.needs_redo then " (redo)" else "")))

/-- `answer_user_question`: coordinator chat reply (the deterministic
context assembly is folded into the oracle) plus the `coord_response`
envelope it appends. -/
def answer_user_question (o : Oracles) (plan : Plan) (user_input : String)
    (log : List Envelope) : String × List Envelope :=
  let reply := o.coordinator_chat (planBriefText plan) user_input
  (reply, log ++ [{ payload_type := "coord_response", timestamp := o.now }])

/-- `handle_planning_turn`: planning-phase user message (locked sessions
fall through to plain question answering; unlocked sessions run the
planner — real or stub — and then answer). -/
def handle_planning_turn (o : Oracles) (plan : Plan) (st : OState)
    (user_text : String) (log : List Envelope) :
    Plan × String × OState × List Envelope :=
  if st.plan_locked then
    let aq := answer_user_question o plan user_text log
    (plan, aq.1, st, aq.2)
  else
    let text := pyStrip user_text
    let st1 :=
      if text ≠ "" then
        { st with planner_chat := st.planner_chat ++ [("user", text)] }
      else st
    let st2 := { st1 with planner_chat := st1.planner_chat ++
      [("planner", "Planner (placeholder): 已收到你的输入。接下来规划阶段会整合你的想法为初步大纲。")] }
    let plan' :=
      if o.use_real_planner then
        apply_planner_result_to_state st2 (o.planner_agent text) text (some plan)
          st2.extra.novel_profile
      else
        generate_stub_plan_from_planning_input plan text st2.extra.novel_profile
    let aq := answer_user_question o plan' user_text log
    (plan', aq.1, st2, aq.2)

/-- The `confirm_plan` branch of `execute_command`. -/
def cmdConfirmPlan (o : Oracles) (plan : Plan) (st : OState)
    (log : List Envelope) : ExecResult :=
  if st.plan_locked then
    finishExec o plan st log "Plan already locked." true []
  else
    let st1 := addMessage { st with plan_locked := true } "orchestrator"
      "Plan has been locked; execution phase can begin."
    finishExec o plan st1 log "Plan locked." true []

/-- The non-interactive `next` branch of `execute_command`: fire-and-return
(mark running, schedule the background task). -/
def cmdNext (o : Oracles) (plan : Plan) (st : OState)
    (log : List Envelope) : ExecResult :=
  if !has_pending_subtasks plan then
    finishExec o plan st log "所有子任务已经完成" true []
  else
    let st1 :=
      match next_pending_subtask plan with
      | some sub => { st with status := "running", current_subtask_id := some sub.id }
      | none => st
    finishExec o plan st1 log "已触发后台执行一个子任务" true ["next"]

/-- The `set_current_subtask` branch of `execute_command`. -/
def cmdSetCurrentSubtask (o : Oracles) (payload : Payload) (plan : Plan)
    (st : OState) (log : List Envelope) : ExecResult :=
  let sid := payload.subtask_id
  if sid = "" then finishExec o plan st log "请提供 subtask_id" false []
  else
    match find_subtask plan sid with
    | none => finishExec o plan st log ("未找到子任务 " ++ sid) false []
    | some t =>
      let st1 := { st with current_subtask_id := some sid }
      finishExec o plan st1 log ("当前步骤已设为 " ++ t.id ++ ": " ++ t.title) true []

/-- The `update_subtask` branch of `execute_command`. -/
def cmdUpdateSubtask (o : Oracles) (payload : Payload) (plan : Plan)
    (st : OState) (log : List Envelope) : ExecResult :=
  let sid := payload.subtask_id
  if sid = "" then finishExec o plan st log "请提供 subtask_id" false []
  else
    match find_subtask_index plan sid with
    | none => finishExec o plan st log ("未找到子任务 " ++ sid) false []
    | some i =>
      let target := plan.subtasks.get! i
      let p := payload.patch.getD {}
      let patchTruthy := p.title.isSome || p.notes.isSome || p.status.isSome ||
        p.has_other_keys
      if !patchTruthy then
        finishExec o plan st log "patch 为空或格式错误" false []
      else
        let changes :=
          (if p.title.isSome then ["title"] else []) ++
          (if p.notes.isSome then ["notes"] else []) ++
          (if p.status.isSome then ["status"] else [])
        let target1 :=
          match p.title with
          | some v => { target with title := v }
          | none => target
        let target2 :=
          match p.notes with
          | some v => { target1 with notes := v }
          | none => target1
        let target3 :=
          match p.status with
          | some v => { target2 with status := v }
          | none => target2
        if changes = [] then
          finishExec o plan st log "patch 没有可更新的字段" false []
        else
          let plan' := { plan with subtasks := plan.subtasks.set i target3 }
          finishExec o plan' st log
            ("已更新子任务 " ++ target.id ++ " 的字段：" ++
              String.intercalate ", " changes) true []

/-- The `insert_subtask` branch of `execute_command`. -/
def cmdInsertSubtask (o : Oracles) (payload : Payload) (plan : Plan)
    (st : OState) (log : List Envelope) : ExecResult :=
  if payload.title = "" then finishExec o plan st log "请提供 title" false []
  else
    let afterId := payload.after_id
    let idxOrFail : Option Nat :=
      if afterId ≠ "" then
        match find_subtask_index plan afterId with
        | none => none
        | some i => some (i + 1)
      else some plan.subtasks.length
    match idxOrFail with
    | none => finishExec o plan st log ("未找到 after_id: " ++ afterId) false []
    | some insert_index =>
      let new_id :=
        if payload.subtask_id ≠ "" then payload.subtask_id
        else generate_subtask_id plan
      let new_subtask : Subtask :=
        { id := new_id, title := payload.title,
          status := payload.status.getD "pending",
          notes := payload.notes.getD "" }
      let newSubs := plan.subtasks.take insert_index ++ [new_subtask] ++
        plan.subtasks.drop insert_index
      let plan2 := { plan with subtasks := newSubs }
      finishExec o plan2 st log
        ("已插入子任务 " ++ new_subtask.id ++ ": " ++ new_subtask.title) true []

/-- The `append_subtask` branch of `execute_command`. -/
def cmdAppendSubtask (o : Oracles) (payload : Payload) (plan : Plan)
    (st : OState) (log : List Envelope) : ExecResult :=
  if payload.title = "" then finishExec o plan st log "请提供 title" false []
  else
    let new_id :=
      if payload.subtask_id ≠ "" then payload.subtask_id
      else generate_subtask_id plan
    let new_subtask : Subtask :=
      { id := new_id, title := payload.title,
        status := payload.status.getD "pending",
        notes := payload.notes.getD "" }
    let plan2 := { plan with subtasks := plan.subtasks ++ [new_subtask] }
    finishExec o plan2 st log
      ("已追加子任务 " ++ new_subtask.id ++ ": " ++ new_subtask.title) true []

/-- The `apply_reviewer_revision` branch of `execute_command`. -/
def cmdApplyReviewerRevision (o : Oracles) (payload : Payload) (plan : Plan)
    (st : OState) (log : List Envelope) : ExecResult :=
  let sid := payload.subtask_id
  let revisions := st.extra.reviewer_revisions
  if sid = "" then finishExec o plan st log "请提供 subtask_id" false []
  else if revisions = [] || (revisions.lookup sid).isNone then
    finishExec o plan st log "未找到该子任务的 reviewer revised_text" false []
  else
    match find_subtask_index plan sid with
    | none => finishExec o plan st log ("未找到子任务 " ++ sid) false []
    | some i =>
      let target := plan.subtasks.get! i
      let entry := (revisions.lookup sid).getD {}
      let revision_text := entry.text
      let refPath := o.artifact_path revision_text
      let target2 := { target with
        output := revision_text
        status := "done"
        notes := pyStrip ("[adopted reviewer revision] " ++ target.notes) }
      let plan2 := { plan with subtasks := plan.subtasks.set i target2 }
      let st1 :=
        match st.extra.novel_inflight_batch with
        | some inf =>
          let inf2 := { inf with applied_subtasks := inf.applied_subtasks ++ [target2.id] }
          { st with extra := { st.extra with novel_inflight_batch := some inf2 } }
        | none => st
      let st2 := record_recent_worker_output st1 target2 revision_text refPath
      let st3 := update_novel_summary o true st2 plan2
      finishExec o plan2 st3 log
        ("已采纳 reviewer 修订并写回子任务 " ++ target.id) true []

/-- The `skip_subtask` branch of `execute_command`. -/
def cmdSkipSubtask (o : Oracles) (payload : Payload) (plan : Plan)
    (st : OState) (log : List Envelope) : ExecResult :=
  let sid := payload.subtask_id
  if sid = "" then finishExec o plan st log "请提供 subtask_id" false []
  else
    match find_subtask_index plan sid with
    | none => finishExec o plan st log ("未找到子任务 " ++ sid) false []
    | some i =>
      let target := plan.subtasks.get! i
      let reasonEff :=
        if payload.reason ≠ "" then payload.reason else payload.notes.getD ""
      let target2 := { target with
        status := "skipped"
        notes := if reasonEff ≠ "" then reasonEff else target.notes }
      let plan2 := { plan with subtasks := plan.subtasks.set i target2 }
      let st1 :=
        if st.current_subtask_id = some sid then
          { st with current_subtask_id := none }
        else st
      let msg := "已跳过子任务 " ++ target.id ++ "：" ++ target.title ++
        (if reasonEff ≠ "" then "（原因：" ++ reasonEff ++ "）" else "")
      finishExec o plan2 st1 log msg true []

/-- The `all` branch of `execute_command`: fire-and-return over all pending
subtasks. -/
def cmdAll (o : Oracles) (plan : Plan) (st : OState)
    (log : List Envelope) : ExecResult :=
  let first := next_pending_subtask plan
  let st1 := { st with
    status := "running"
    current_subtask_id := first.map (fun sub => sub.id) }
  finishExec o plan st1 log "已触发后台执行所有待处理子任务" true ["all"]

/-- The `ask` branch of `execute_command`. -/
def cmdAsk (o : Oracles) (payload : Payload) (plan : Plan) (st : OState)
    (log : List Envelope) : ExecResult :=
  let question := if payload.question ≠ "" then payload.question else payload.prompt
  if question = "" then finishExec o plan st log "请提供问答内容" false []
  else
    let st1 := addMessage st "user" question
    let st2 := run_orchestrator_turn o st1 question
    if !st2.plan_locked then
      let ht := handle_planning_turn o plan st2 question log
      finishExec o ht.1 ht.2.2.1 ht.2.2.2 ht.2.1 true []
    else
      let aq := answer_user_question o plan question log
      let consumed := consume_orchestrator_events o st2 plan
      finishExec o consumed.2 consumed.1 aq.2 aq.1 true []

/-- The free-text fallback branch of `execute_command`. -/
def cmdFallback (o : Oracles) (normalized : String) (plan : Plan) (st : OState)
    (log : List Envelope) : ExecResult :=
  let st1 := addMessage st "user" normalized
  let st2 := run_orchestrator_turn o st1 normalized
  let aq := answer_user_question o plan normalized log
  let consumed := consume_orchestrator_events o st2 plan
  finishExec o consumed.2 consumed.1 aq.2 aq.1 true []

/-- `execute_command` (API path, `interactive_coordinator=None`): the
unified command entry point.  The returned `ExecResult` carries the
post-command session (after the auto-redo snapshot hook), the response
message and `ok` flag, and the labels of background tasks scheduled by the
command (the background bodies themselves run detached and are not part of
the command's own transition).  The per-command branch bodies are the
`cmd...` definitions above. -/
def execute_command (o : Oracles) (command : String) (payload : Payload)
    (s : Sess) : ExecResult :=
  let plan := s.plan
  let st := s.state
  let log := s.log
  let normalized := pyStrip command
  if normalized = "" then finishExec o plan st log "空命令" false []
  else
  let bare := lstripSlash (pyLower normalized)
  if st.status = "running" && (bare = "next" || bare = "all") then
    finishExec o plan st log "已有执行在进行中，请稍候再试" false []
  else if st.plan_locked && PLAN_EDITING_KINDS.contains bare then
    let st1 := addMessage st "orchestrator" lockedEditNotice
    finishExec o plan st1 log "Plan editing is disabled after lock." false []
  else if bare = "plan" then
    finishExec o plan st log "当前计划" true []
  else if bare = "confirm_plan" then cmdConfirmPlan o plan st log
  else if bare = "next" then cmdNext o plan st log
  else if bare = "set_current_subtask" then cmdSetCurrentSubtask o payload plan st log
  else if bare = "update_subtask" then cmdUpdateSubtask o payload plan st log
  else if bare = "insert_subtask" then cmdInsertSubtask o payload plan st log
  else if bare = "append_subtask" then cmdAppendSubtask o payload plan st log
  else if bare = "apply_reviewer_revision" then cmdApplyReviewerRevision o payload plan st log
  else if bare = "skip_subtask" then cmdSkipSubtask o payload plan st log
  else if bare = "all" then cmdAll o plan st log
  else if bare = "ask" then cmdAsk o payload plan st log
  else cmdFallback o normalized plan st log

/-- Fold a sequence of dispatched commands over a session. -/
def execute_commands (o : Oracles) : List (String × Payload) → Sess → Sess
  | [], s => s
  | (cmd, pl) :: rest, s => execute_commands o rest (execute_command o cmd pl s).sess

/-!
# Theorems

Supporting lemmas first, then one theorem per claim (with witnesses and
counterexamples as required).
-/

/-! ## Decimal round trip -/

theorem digitVal_digitChar {n : Nat} (h : n < 10) : digitVal (digitChar n) = n := by
  interval_cases n <;> decide

theorem isDigit_digitChar {n : Nat} (h : n < 10) : (digitChar n).isDigit = true := by
  interval_cases n <;> decide

theorem parseDigits_aux (l : List Char) (a : Nat) :
    l.foldl (fun acc c => 10 * acc + digitVal c) a =
      a * 10 ^ l.length + parseDigits l := by
  induction l generalizing a with
  | nil => simp [parseDigits]
  | cons c t ih =>
    simp only [List.foldl_cons, parseDigits, List.length_cons]
    rw [ih, ih (10 * 0 + digitVal c)]
    ring

theorem parseDigits_append (xs ys : List Char) :
    parseDigits (xs ++ ys) = parseDigits xs * 10 ^ ys.length + parseDigits ys := by
  unfold parseDigits
  rw [List.foldl_append, parseDigits_aux]
  rfl

theorem natDigitsAux_congr : ∀ (f1 f2 n : Nat), n < f1 → n < f2 →
    natDigitsAux f1 n = natDigitsAux f2 n
  | 0, _, n, h1, _ => absurd h1 (Nat.not_lt_zero n)
  | _ + 1, 0, n, _, h2 => absurd h2 (Nat.not_lt_zero n)
  | f1 + 1, f2 + 1, n, h1, h2 => by
    unfold natDigitsAux
    by_cases h : n < 10
    · simp [h]
    · simp only [h, if_false]
      rw [natDigitsAux_congr f1 f2 (n / 10) (by omega) (by omega)]

/-- The recurrence of Python decimal printing. -/
theorem natDigits_eq (n : Nat) :
    natDigits n =
      if n < 10 then [digitChar n]
      else natDigits (n / 10) ++ [digitChar (n % 10)] := by
  show natDigitsAux (n + 1) n = _
  unfold natDigitsAux
  by_cases h : n < 10
  · simp [h]
  · simp only [h, if_false]
    rw [natDigitsAux_congr n (n / 10 + 1) (n / 10) (by omega) (by omega)]
    rfl

theorem parseDigits_natDigits (n : Nat) : parseDigits (natDigits n) = n := by
  induction n using Nat.strong_induction_on with
  | _ n ih =>
    rw [natDigits_eq]
    by_cases h : n < 10
    · rw [if_pos h]
      simp [parseDigits, digitVal_digitChar h]
    · rw [if_neg h]
      rw [parseDigits_append]
      have hlt : n / 10 < n := Nat.div_lt_self (by omega) (by omega)
      rw [ih _ hlt]
      simp [parseDigits, digitVal_digitChar (Nat.mod_lt n (by omega))]
      omega

theorem natDigits_ne_nil (n : Nat) : natDigits n ≠ [] := by
  rw [natDigits_eq]
  by_cases h : n < 10 <;> simp [h]

theorem natDigits_all_digit (n : Nat) : (natDigits n).all Char.isDigit = true := by
  induction n using Nat.strong_induction_on with
  | _ n ih =>
    rw [natDigits_eq]
    by_cases h : n < 10
    · simp [h, isDigit_digitChar h]
    · rw [if_neg h]
      simp only [List.all_append, Bool.and_eq_true]
      refine And.intro ?_ ?_
      · exact ih _ (Nat.div_lt_self (by omega) (by omega))
      · simp [isDigit_digitChar (Nat.mod_lt n (by omega))]

/-! ## Frame lemmas -/

@[simp] theorem finishExec_plan (o : Oracles) (plan : Plan) (st : OState)
    (log : List Envelope) (m : String) (ok : Bool) (sch : List String) :
    (finishExec o plan st log m ok sch).sess.plan =
      (auto_trigger_redo_from_logs o plan st log).1 := rfl

@[simp] theorem finishExec_state (o : Oracles) (plan : Plan) (st : OState)
    (log : List Envelope) (m : String) (ok : Bool) (sch : List String) :
    (finishExec o plan st log m ok sch).sess.state =
      (auto_trigger_redo_from_logs o plan st log).2 := rfl

@[simp] theorem finishExec_log (o : Oracles) (plan : Plan) (st : OState)
    (log : List Envelope) (m : String) (ok : Bool) (sch : List String) :
    (finishExec o plan st log m ok sch).sess.log = log := rfl

@[simp] theorem finishExec_message (o : Oracles) (plan : Plan) (st : OState)
    (log : List Envelope) (m : String) (ok : Bool) (sch : List String) :
    (finishExec o plan st log m ok sch).message = m := rfl

@[simp] theorem finishExec_ok (o : Oracles) (plan : Plan) (st : OState)
    (log : List Envelope) (m : String) (ok : Bool) (sch : List String) :
    (finishExec o plan st log m ok sch).ok = ok := rfl

@[simp] theorem finishExec_scheduled (o : Oracles) (plan : Plan) (st : OState)
    (log : List Envelope) (m : String) (ok : Bool) (sch : List String) :
    (finishExec o plan st log m ok sch).scheduled = sch := rfl

@[simp] theorem addMessage_orch_events (st : OState) (r c : String) :
    (addMessage st r c).orch_events = st.orch_events := by
  unfold addMessage; split <;> rfl

@[simp] theorem addMessage_extra (st : OState) (r c : String) :
    (addMessage st r c).extra = st.extra := by
  unfold addMessage; split <;> rfl

@[simp] theorem addMessage_plan_locked (st : OState) (r c : String) :
    (addMessage st r c).plan_locked = st.plan_locked := by
  unfold addMessage; split <;> rfl

@[simp] theorem addMessage_status (st : OState) (r c : String) :
    (addMessage st r c).status = st.status := by
  unfold addMessage; split <;> rfl

@[simp] theorem addProgressEvent_extra (st : OState) (a s g : String) :
    (addProgressEvent st a s g).extra = st.extra := by
  unfold addProgressEvent; split <;> rfl

@[simp] theorem addProgressEvent_plan_locked (st : OState) (a s g : String) :
    (addProgressEvent st a s g).plan_locked = st.plan_locked := by
  unfold addProgressEvent; split <;> rfl

@[simp] theorem addProgressEvent_orch_events (st : OState) (a s g : String) :
    (addProgressEvent st a s g).orch_events = st.orch_events := by
  unfold addProgressEvent; split <;> rfl

@[simp] theorem addProgressEvent_messages (st : OState) (a s g : String) :
    (addProgressEvent st a s g).orchestrator_messages = st.orchestrator_messages := by
  unfold addProgressEvent; split <;> rfl

@[simp] theorem update_novel_summary_plan_locked (o : Oracles) (w : Bool)
    (st : OState) (plan : Plan) :
    (update_novel_summary o w st plan).plan_locked = st.plan_locked := by
  unfold update_novel_summary; split <;> rfl

@[simp] theorem update_novel_summary_orch_events (o : Oracles) (w : Bool)
    (st : OState) (plan : Plan) :
    (update_novel_summary o w st plan).orch_events = st.orch_events := by
  unfold update_novel_summary; split <;> rfl

@[simp] theorem update_novel_summary_messages (o : Oracles) (w : Bool)
    (st : OState) (plan : Plan) :
    (update_novel_summary o w st plan).orchestrator_messages =
      st.orchestrator_messages := by
  unfold update_novel_summary; split <;> rfl

@[simp] theorem cache_rre_plan_locked (st : OState) (a b c d : String) :
    (cache_reviewer_revision_entry st a b c d).plan_locked = st.plan_locked := by
  unfold cache_reviewer_revision_entry; split <;> rfl

@[simp] theorem cache_rre_novel_mode (st : OState) (a b c d : String) :
    (cache_reviewer_revision_entry st a b c d).extra.novel_mode =
      st.extra.novel_mode := by
  unfold cache_reviewer_revision_entry; split <;> rfl

@[simp] theorem cache_rre_batch_tasks (st : OState) (a b c d : String) :
    (cache_reviewer_revision_entry st a b c d).extra.reviewer_batch_tasks =
      st.extra.reviewer_batch_tasks := by
  unfold cache_reviewer_revision_entry; split <;> rfl

@[simp] theorem cache_rre_batch_counter (st : OState) (a b c d : String) :
    (cache_reviewer_revision_entry st a b c d).extra.reviewer_batch_counter =
      st.extra.reviewer_batch_counter := by
  unfold cache_reviewer_revision_entry; split <;> rfl

@[simp] theorem cache_rre_inflight (st : OState) (a b c d : String) :
    (cache_reviewer_revision_entry st a b c d).extra.novel_inflight_batch =
      st.extra.novel_inflight_batch := by
  unfold cache_reviewer_revision_entry; split <;> rfl

@[simp] theorem record_rwo_plan_locked (st : OState) (sub : Subtask) (w a : String) :
    (record_recent_worker_output st sub w a).plan_locked = st.plan_locked := rfl

@[simp] theorem run_orchestrator_turn_plan_locked (o : Oracles) (st : OState)
    (t : String) :
    (run_orchestrator_turn o st t).plan_locked = st.plan_locked := by
  unfold run_orchestrator_turn
  by_cases h : pyStrip t = "" <;> simp [h]

/-! ## List support lemmas -/

theorem set_get!_self {α : Type} [Inhabited α] :
    ∀ (l : List α) (i : Nat), l.set i (l.get! i) = l
  | [], _ => rfl
  | _ :: _, 0 => rfl
  | a :: t, (n + 1) => by
    simp only [List.get!_cons_succ, List.set_cons_succ]
    exact congrArg (a :: ·) (set_get!_self t n)

/-- Updating a position with an element of the same id leaves the id list
unchanged. -/
theorem map_ids_set (l : List Subtask) (i : Nat) (x : Subtask)
    (h : x.id = (l.get! i).id) :
    (l.set i x).map (fun s => s.id) = l.map (fun s => s.id) := by
  induction l generalizing i with
  | nil => simp
  | cons a t ih =>
    cases i with
    | zero =>
      simp only [List.get!_cons_zero] at h
      simp [List.set_cons_zero, h]
    | succ n =>
      simp only [List.get!_cons_succ] at h
      simp [List.set_cons_succ, ih n h]

theorem le_foldr_max {l : List Nat} {x : Nat} (hx : x ∈ l) : x ≤ l.foldr max 0 := by
  induction l with
  | nil => cases hx
  | cons a t ih =>
    simp only [List.foldr_cons]
    rcases List.mem_cons.mp hx with rfl | h
    · exact le_max_left _ _
    · exact le_trans (ih h) (le_max_right _ _)

theorem findIdx?_spec {α : Type} [Inhabited α] (p : α → Bool) :
    ∀ (l : List α) (j i : Nat), List.findIdx? p l j = some i →
      j ≤ i ∧ i - j < l.length ∧ p (l.get! (i - j)) = true := by
  intro l
  induction l with
  | nil => intro j i h; simp [List.findIdx?] at h
  | cons a t ih =>
    intro j i h
    rw [List.findIdx?_cons] at h
    by_cases hp : p a = true
    · simp only [hp, if_true, Option.some.injEq] at h
      subst h
      simp [hp]
    · simp only [hp, if_false] at h
      obtain ⟨h1, h2, h3⟩ := ih (j + 1) i h
      refine ⟨by omega, by simp only [List.length_cons]; omega, ?_⟩
      have he : i - j = (i - (j + 1)) + 1 := by omega
      rw [he, List.get!_cons_succ]
      exact h3

theorem findIdx?_lt_length {α : Type} [Inhabited α] {p : α → Bool}
    {l : List α} {i : Nat} (h : List.findIdx? p l = some i) :
    i < l.length ∧ p (l.get! i) = true := by
  have := findIdx?_spec p l 0 i h
  simpa using this

/-! ## Identity of subtask ids under event consumption -/

theorem consumeOneEvent_map_ids (o : Oracles) (acc : ConsumeAcc) (ev : OrchEvent)
    (h : normalize_event_kind (if ev.raw_kind ≠ "" then ev.raw_kind else ev.kind) ≠
      "REQUEST_PLAN_UPDATE") :
    (consumeOneEvent o acc ev).plan.subtasks.map (fun s => s.id) =
      acc.plan.subtasks.map (fun s => s.id) := by
  unfold consumeOneEvent
  dsimp only
  generalize hpk : (if ev.raw_kind ≠ "" then ev.raw_kind else ev.kind) = pk at h ⊢
  split
  · -- content change
    cases hf : findTargetIdx acc.plan ev.target_subtask_id with
    | none => simp [hf]
    | some idx =>
      simp only [hf]
      apply map_ids_set
      split <;> rfl
  · -- the plan-update case is discharged by `h`; the next split is the
    -- REQUEST_OTHER test
    split
    · rfl
    · split
      · -- trigger redo
        cases hf : findTargetIdx acc.plan ev.target_subtask_id with
        | none => simp [hf]
        | some idx =>
          simp only [hf]
          rw [List.set_set]
          apply map_ids_set
          split <;> rfl
      · rfl

theorem foldl_consume_map_ids (o : Oracles) (evs : List OrchEvent) :
    ∀ (acc : ConsumeAcc),
      (∀ ev ∈ evs, normalize_event_kind
        (if ev.raw_kind ≠ "" then ev.raw_kind else ev.kind) ≠ "REQUEST_PLAN_UPDATE") →
      ((evs.foldl (consumeOneEvent o) acc).plan.subtasks.map (fun s => s.id)) =
        acc.plan.subtasks.map (fun s => s.id) := by
  induction evs with
  | nil => intro acc _; rfl
  | cons e t ih =>
    intro acc h
    rw [List.foldl_cons]
    rw [ih _ (fun ev hev => h ev (List.mem_cons_of_mem e hev))]
    exact consumeOneEvent_map_ids o acc e (h e (List.mem_cons_self e t))

theorem consume_map_ids (o : Oracles) (st : OState) (plan : Plan)
    (h : ∀ ev ∈ st.orch_events, normalize_event_kind
      (if ev.raw_kind ≠ "" then ev.raw_kind else ev.kind) ≠ "REQUEST_PLAN_UPDATE") :
    ((consume_orchestrator_events o st plan).2).subtasks.map (fun s => s.id) =
      plan.subtasks.map (fun s => s.id) := by
  unfold consume_orchestrator_events
  exact foldl_consume_map_ids o st.orch_events ⟨st, plan, []⟩ h

theorem computeNewRedoEvents_all_trigger (log : List Envelope) (st : OState) :
    ∀ ev ∈ (computeNewRedoEvents log st).1,
      ev.kind = "TRIGGER_REDO" ∧ ev.raw_kind = "" := by
  unfold computeNewRedoEvents
  generalize latestRedoDecisions log = latest
  have main : ∀ (l : List (String × LatestInfo))
      (acc : List OrchEvent × List (String × String)),
      (∀ ev ∈ acc.1, ev.kind = "TRIGGER_REDO" ∧ ev.raw_kind = "") →
      ∀ ev ∈ (l.foldl (fun (acc : List OrchEvent × List (String × String)) p =>
        let sub_id := p.1
        let info := p.2
        let ts := info.timestamp
        if info.decision ≠ "redo" then acc
        else if ts ≠ "" && strGe ((acc.2.lookup sub_id).getD "") ts then acc
        else if ((st.orch_events.filterMap (fun ev =>
            if ev.kind = "TRIGGER_REDO" then some (strOfTarget ev.target_subtask_id)
            else none)).contains sub_id) then
          (acc.1, assocSet acc.2 sub_id
            (if ts ≠ "" then ts else (acc.2.lookup sub_id).getD ""))
        else
          let instructions :=
            if info.reason ≠ "" then info.reason
            else "Redo requested by reviewer at " ++ (if ts ≠ "" then ts else "latest")
          let events := acc.1 ++
            [{ kind := "TRIGGER_REDO", target_subtask_id := .strT sub_id,
               instructions := instructions }]
          if ts ≠ "" then (events, assocSet acc.2 sub_id ts) else (events, acc.2)) acc).1,
        ev.kind = "TRIGGER_REDO" ∧ ev.raw_kind = "" := by
    intro l
    induction l with
    | nil => intro acc hacc; exact hacc
    | cons p t ih =>
      intro acc hacc
      rw [List.foldl_cons]
      apply ih
      dsimp only
      split
      · exact hacc
      · split
        · exact hacc
        · split
          · exact hacc
          · split <;>
            · intro ev hev
              rcases List.mem_append.mp hev with h1 | h2
              · exact hacc ev h1
              · simp only [List.mem_singleton] at h2
                subst h2
                exact ⟨rfl, rfl⟩
  exact main latest ([], st.extra.processed_redo_decisions) (by intro ev h; cases h)

theorem auto_trigger_map_ids (o : Oracles) (plan : Plan) (st : OState)
    (log : List Envelope)
    (h : ∀ ev ∈ st.orch_events, normalize_event_kind
      (if ev.raw_kind ≠ "" then ev.raw_kind else ev.kind) ≠ "REQUEST_PLAN_UPDATE") :
    ((auto_trigger_redo_from_logs o plan st log).1).subtasks.map (fun s => s.id) =
      plan.subtasks.map (fun s => s.id) := by
  simp only [auto_trigger_redo_from_logs]
  split
  · rfl
  · dsimp only
    apply consume_map_ids
    intro ev hev
    simp only [List.mem_append] at hev
    rcases hev with h1 | h2
    · exact h ev h1
    · obtain ⟨hk, hr⟩ := computeNewRedoEvents_all_trigger log st ev h2
      rw [hr, hk]
      decide

/-! ## Auto-trigger idleness -/

theorem auto_trigger_idle (o : Oracles) (plan : Plan) (st : OState)
    (log : List Envelope) (h : (computeNewRedoEvents log st).1 = []) :
    auto_trigger_redo_from_logs o plan st log = (plan, st) := by
  unfold auto_trigger_redo_from_logs
  simp [h]

theorem computeNewRedoEvents_congr (log : List Envelope) (st st' : OState)
    (h1 : st.orch_events = st'.orch_events)
    (h2 : st.extra.processed_redo_decisions = st'.extra.processed_redo_decisions) :
    computeNewRedoEvents log st = computeNewRedoEvents log st' := by
  unfold computeNewRedoEvents
  rw [h1, h2]

/-! ## C10 — blank reviewer replies parse as acceptance -/

theorem pyStrip_of_all_space {s : String} (h : s.data.all pyIsSpace = true) :
    pyStrip s = "" := by
  have h1 : s.data.dropWhile pyIsSpace = [] := by
    rw [List.dropWhile_eq_nil_iff]
    intro x hx
    exact List.all_eq_true.mp h x hx
  unfold pyStrip stripChars
  rw [h1]
  rfl

/-- C10: for every reviewer reply that is empty or contains only
whitespace, `_parse_reviewer_response` returns exactly `("ACCEPT", "",
None)`; consequently the execution pipeline treats a blank reviewer reply
as acceptance: the subtask is marked `done` with the empty reason as its
notes, and the worker/review loop terminates rather than retrying or
reporting an error. -/
theorem c10_blank_reviewer_reply_is_accept (s : String) (sub : Subtask)
    (h : s.data.all pyIsSpace = true) :
    parse_reviewer_response s = ("ACCEPT", "", none) ∧
    (apply_review_outcome (parse_reviewer_response s).1
        (parse_reviewer_response s).2.1 sub).1.status = "done" ∧
    (apply_review_outcome (parse_reviewer_response s).1
        (parse_reviewer_response s).2.1 sub).1.notes = "" ∧
    (apply_review_outcome (parse_reviewer_response s).1
        (parse_reviewer_response s).2.1 sub).2.2 = true := by
  have hp : parse_reviewer_response s = ("ACCEPT", "", none) := by
    unfold parse_reviewer_response
    rw [pyStrip_of_all_space h]
    rfl
  refine ⟨hp, ?_, ?_, ?_⟩ <;> rw [hp] <;> simp [apply_review_outcome]

theorem c10_blank_reviewer_reply_witness :
    parse_reviewer_response " \n\t " = ("ACCEPT", "", none) ∧
    (apply_review_outcome (parse_reviewer_response " \n\t ").1
        (parse_reviewer_response " \n\t ").2.1
        { id := "t5", title := "draft" }).1.status = "done" ∧
    (apply_review_outcome (parse_reviewer_response " \n\t ").1
        (parse_reviewer_response " \n\t ").2.1
        { id := "t5", title := "draft" }).1.notes = "" ∧
    (apply_review_outcome (parse_reviewer_response " \n\t ").1
        (parse_reviewer_response " \n\t ").2.1
        { id := "t5", title := "draft" }).2.2 = true :=
  c10_blank_reviewer_reply_is_accept " \n\t " { id := "t5", title := "draft" }
    (by decide)

/-! ## C7 — subtask id uniqueness -/

theorem idNum_t_cons (rest : List Char) :
    idNum ⟨'t' :: rest⟩ =
      if rest ≠ [] && rest.all Char.isDigit then some (parseDigits rest) else none := rfl

theorem idNum_generate (plan : Plan) :
    idNum (generate_subtask_id plan) =
      some ((plan.subtasks.filterMap (fun sub => idNum sub.id)).foldr max 0 + 1) := by
  set m := (plan.subtasks.filterMap (fun sub => idNum sub.id)).foldr max 0 + 1 with hm
  show idNum ⟨'t' :: natDigits m⟩ = some m
  rw [idNum_t_cons]
  simp [natDigits_ne_nil m, natDigits_all_digit m, parseDigits_natDigits m]

/-- `_generate_subtask_id` never returns an id already present in the
plan. -/
theorem generate_subtask_id_fresh (plan : Plan) :
    ∀ sub ∈ plan.subtasks, sub.id ≠ generate_subtask_id plan := by
  intro sub hs heq
  have h1 : idNum sub.id =
      some ((plan.subtasks.filterMap (fun t => idNum t.id)).foldr max 0 + 1) := by
    rw [heq]; exact idNum_generate plan
  have h2 : ((plan.subtasks.filterMap (fun t => idNum t.id)).foldr max 0 + 1) ∈
      plan.subtasks.filterMap (fun t => idNum t.id) :=
    List.mem_filterMap.mpr ⟨sub, hs, h1⟩
  have h3 := le_foldr_max h2
  omega

theorem nodup_insert_ids (l : List Subtask) (k : Nat) (x : Subtask)
    (hx : ∀ sub ∈ l, sub.id ≠ x.id) (hnd : (l.map (fun t => t.id)).Nodup) :
    ((l.take k ++ [x] ++ l.drop k).map (fun t => t.id)).Nodup := by
  rw [List.map_append, List.map_append, List.map_take, List.map_drop]
  have he : (l.map (fun t => t.id)).take k ++ [x].map (fun t => t.id) ++
      (l.map (fun t => t.id)).drop k =
      (l.map (fun t => t.id)).take k ++ x.id :: (l.map (fun t => t.id)).drop k := by
    simp
  rw [he, List.nodup_middle, List.take_append_drop]
  refine List.nodup_cons.mpr ⟨fun hmem => ?_, hnd⟩
  obtain ⟨sub, hs, heq⟩ := List.mem_map.mp hmem
  exact hx sub hs heq

/-- C7 is falsified by a caller-supplied duplicate id: inserting a subtask
whose payload carries `subtask_id="t1"` into a plan that already contains
`t1` yields a plan with two subtasks of id `t1`. -/
theorem c7_counterexample :
    ((execute_command {} "insert_subtask" { subtask_id := "t1", title := "副本" } { plan := { plan_id := "p1", title := "P", subtasks := [{ id := "t1", title := "第一步" }] }, state := { session_id := "s1", plan_id := "p1" } }).sess.plan.subtasks.map (fun t => t.id)) = ["t1", "t1"] ∧
    ¬ (((execute_command {} "insert_subtask" { subtask_id := "t1", title := "副本" } { plan := { plan_id := "p1", title := "P", subtasks := [{ id := "t1", title := "第一步" }] }, state := { session_id := "s1", plan_id := "p1" } }).sess.plan.subtasks.map (fun t => t.id)).Nodup) := by
  constructor
  · rfl
  · decide

theorem nodup_append_ids (l : List Subtask) (x : Subtask)
    (hx : ∀ sub ∈ l, sub.id ≠ x.id) (hnd : (l.map (fun t => t.id)).Nodup) :
    ((l ++ [x]).map (fun t => t.id)).Nodup := by
  have h := nodup_insert_ids l l.length x hx hnd
  simpa using h

theorem nodup_after_hook (o : Oracles) (plan : Plan) (st : OState)
    (log : List Envelope)
    (hev : ∀ ev ∈ st.orch_events, normalize_event_kind
      (if ev.raw_kind ≠ "" then ev.raw_kind else ev.kind) ≠ "REQUEST_PLAN_UPDATE")
    (hnd : (plan.subtasks.map (fun t => t.id)).Nodup) :
    (((auto_trigger_redo_from_logs o plan st log).1).subtasks.map
      (fun t => t.id)).Nodup := by
  rw [auto_trigger_map_ids o plan st log hev]
  exact hnd

/-- C7 (amended): the dispatcher does not validate a caller-supplied
`subtask_id`, so `insert_subtask`/`append_subtask` with a supplied id can
duplicate an existing id (see the counterexample).  What does hold: a
generated id (`_generate_subtask_id`) is never an id already present in
the plan, and when no `subtask_id` is supplied in the payload,
`insert_subtask` and `append_subtask` preserve uniqueness of the plan's
subtask ids (provided the queue holds no plan-update intent, whose
plan replacement is delegated to the external planner). -/
theorem c7_generated_ids_unique (o : Oracles) (payload : Payload) (s : Sess)
    (hpid : payload.subtask_id = "")
    (hev : ∀ ev ∈ s.state.orch_events, normalize_event_kind
      (if ev.raw_kind ≠ "" then ev.raw_kind else ev.kind) ≠ "REQUEST_PLAN_UPDATE")
    (hnd : (s.plan.subtasks.map (fun t => t.id)).Nodup) :
    (∀ sub ∈ s.plan.subtasks, sub.id ≠ generate_subtask_id s.plan) ∧
    ((execute_command o "insert_subtask" payload s).sess.plan.subtasks.map
      (fun t => t.id)).Nodup ∧
    ((execute_command o "append_subtask" payload s).sess.plan.subtasks.map
      (fun t => t.id)).Nodup := by
  have hfresh := generate_subtask_id_fresh s.plan
  refine ⟨hfresh, ?_, ?_⟩
  · simp only [execute_command,
      show pyStrip "insert_subtask" = "insert_subtask" from rfl,
      show lstripSlash (pyLower "insert_subtask") = "insert_subtask" from rfl]
    simp
    split
    · exact nodup_after_hook _ _ _ _ (by simpa using hev) hnd
    · simp only [cmdInsertSubtask, hpid]
      split
      · exact nodup_after_hook _ _ _ _ (by simpa using hev) hnd
      · split
        · exact nodup_after_hook _ _ _ _ (by simpa using hev) hnd
        · refine nodup_after_hook _ _ _ _ (by simpa using hev) ?_
          exact nodup_insert_ids s.plan.subtasks _ _
            (fun sub hs => hfresh sub hs) hnd
  · simp only [execute_command,
      show pyStrip "append_subtask" = "append_subtask" from rfl,
      show lstripSlash (pyLower "append_subtask") = "append_subtask" from rfl]
    simp
    split
    · exact nodup_after_hook _ _ _ _ (by simpa using hev) hnd
    · simp only [cmdAppendSubtask, hpid]
      split
      · exact nodup_after_hook _ _ _ _ (by simpa using hev) hnd
      · refine nodup_after_hook _ _ _ _ (by simpa using hev) ?_
        exact nodup_append_ids s.plan.subtasks _
          (fun sub hs => hfresh sub hs) hnd


theorem c7_generated_ids_unique_witness :
    (∀ sub ∈ ({ plan_id := "p2", title := "Q", subtasks := [{ id := "t1", title := "a" }, { id := "t2", title := "b" }] } : Plan).subtasks, sub.id ≠ generate_subtask_id ({ plan_id := "p2", title := "Q", subtasks := [{ id := "t1", title := "a" }, { id := "t2", title := "b" }] } : Plan)) ∧
    ((execute_command {} "insert_subtask" { title := "新章节" } ({ plan := { plan_id := "p2", title := "Q", subtasks := [{ id := "t1", title := "a" }, { id := "t2", title := "b" }] }, state := { session_id := "s2", plan_id := "p2" } } : Sess)).sess.plan.subtasks.map (fun t => t.id)).Nodup ∧
    ((execute_command {} "append_subtask" { title := "新章节" } ({ plan := { plan_id := "p2", title := "Q", subtasks := [{ id := "t1", title := "a" }, { id := "t2", title := "b" }] }, state := { session_id := "s2", plan_id := "p2" } } : Sess)).sess.plan.subtasks.map (fun t => t.id)).Nodup :=
  c7_generated_ids_unique {} { title := "新章节" } ({ plan := { plan_id := "p2", title := "Q", subtasks := [{ id := "t1", title := "a" }, { id := "t2", title := "b" }] }, state := { session_id := "s2", plan_id := "p2" } } : Sess) rfl (by simp) (by decide)

/-! ## C4 — re-entrancy guard on `next`/`all` -/

/-- C4: dispatching `next` or `all` while the session status is `running`
is rejected immediately: `ok = false`, no background task is scheduled, the
response message is the busy notice, and the rejected command passes plan
and state through to the snapshot untouched — so whenever the ever-present
auto-redo snapshot hook has nothing to do, the plan (and with it every
subtask status) and the state are exactly those before the command. -/
theorem c4_reentrancy_guard (o : Oracles) (payload : Payload) (s : Sess)
    (cmd : String) (hcmd : cmd = "next" ∨ cmd = "all")
    (hrun : s.state.status = "running") :
    (execute_command o cmd payload s).ok = false ∧
    (execute_command o cmd payload s).scheduled = [] ∧
    (execute_command o cmd payload s).message = "已有执行在进行中，请稍候再试" ∧
    execute_command o cmd payload s =
      finishExec o s.plan s.state s.log "已有执行在进行中，请稍候再试" false [] ∧
    ((computeNewRedoEvents s.log s.state).1 = [] →
      (execute_command o cmd payload s).sess = s) := by
  have heq : execute_command o cmd payload s =
      finishExec o s.plan s.state s.log "已有执行在进行中，请稍候再试" false [] := by
    rcases hcmd with rfl | rfl
    · simp only [execute_command, show pyStrip "next" = "next" from rfl,
        show lstripSlash (pyLower "next") = "next" from rfl]
      simp [hrun]
    · simp only [execute_command, show pyStrip "all" = "all" from rfl,
        show lstripSlash (pyLower "all") = "all" from rfl]
      simp [hrun]
  refine ⟨by rw [heq]; rfl, by rw [heq]; rfl, by rw [heq]; rfl, heq, ?_⟩
  intro hidle
  rw [heq]
  show Sess.mk (auto_trigger_redo_from_logs o s.plan s.state s.log).1
    (auto_trigger_redo_from_logs o s.plan s.state s.log).2 s.log = s
  rw [auto_trigger_idle o s.plan s.state s.log hidle]

theorem c4_reentrancy_guard_witness :
    (execute_command {} "next" {} { plan := { plan_id := "p4", title := "P", subtasks := [{ id := "t1", title := "a" }] }, state := { session_id := "s4", plan_id := "p4", status := "running" } }).ok = false ∧
    (execute_command {} "next" {} { plan := { plan_id := "p4", title := "P", subtasks := [{ id := "t1", title := "a" }] }, state := { session_id := "s4", plan_id := "p4", status := "running" } }).scheduled = [] ∧
    (execute_command {} "next" {} { plan := { plan_id := "p4", title := "P", subtasks := [{ id := "t1", title := "a" }] }, state := { session_id := "s4", plan_id := "p4", status := "running" } }).message = "已有执行在进行中，请稍候再试" ∧
    execute_command {} "next" {} { plan := { plan_id := "p4", title := "P", subtasks := [{ id := "t1", title := "a" }] }, state := { session_id := "s4", plan_id := "p4", status := "running" } } = finishExec {} { plan_id := "p4", title := "P", subtasks := [{ id := "t1", title := "a" }] } { session_id := "s4", plan_id := "p4", status := "running" } [] "已有执行在进行中，请稍候再试" false [] ∧
    ((computeNewRedoEvents [] { session_id := "s4", plan_id := "p4", status := "running" }).1 = [] →
      (execute_command {} "next" {} { plan := { plan_id := "p4", title := "P", subtasks := [{ id := "t1", title := "a" }] }, state := { session_id := "s4", plan_id := "p4", status := "running" } }).sess = { plan := { plan_id := "p4", title := "P", subtasks := [{ id := "t1", title := "a" }] }, state := { session_id := "s4", plan_id := "p4", status := "running" } }) :=
  c4_reentrancy_guard {} {} { plan := { plan_id := "p4", title := "P", subtasks := [{ id := "t1", title := "a" }] }, state := { session_id := "s4", plan_id := "p4", status := "running" } } "next" (Or.inl rfl) rfl

/-! ## C5 — locked-plan gating of structural edits -/

/-- C5: once the plan is locked, every structural edit command
(`set_current_subtask`, `update_subtask`, `insert_subtask`,
`append_subtask`, `skip_subtask`) is rejected with `ok = false` and the
message "Plan editing is disabled after lock." (the orchestrator notice is
recorded in the transcript), no background task is scheduled, and — modulo
the ever-present auto-redo snapshot hook, here assumed idle — the plan, its
subtask list and every subtask's fields are unchanged; the state only gains
the orchestrator notice. -/
theorem c5_locked_plan_gating (o : Oracles) (payload : Payload) (s : Sess)
    (cmd : String) (hcmd : cmd ∈ PLAN_EDITING_KINDS)
    (hlock : s.state.plan_locked = true) :
    (execute_command o cmd payload s).ok = false ∧
    (execute_command o cmd payload s).message = "Plan editing is disabled after lock." ∧
    (execute_command o cmd payload s).scheduled = [] ∧
    ((computeNewRedoEvents s.log s.state).1 = [] →
      (execute_command o cmd payload s).sess.plan = s.plan ∧
      (execute_command o cmd payload s).sess.state =
        addMessage s.state "orchestrator" lockedEditNotice) := by
  have hg : pyStrip cmd = cmd ∧ lstripSlash (pyLower cmd) = cmd ∧
      PLAN_EDITING_KINDS.contains cmd = true ∧ cmd ≠ "" ∧ cmd ≠ "next" ∧
      cmd ≠ "all" := by
    fin_cases hcmd <;> exact ⟨rfl, rfl, rfl, by decide, by decide, by decide⟩
  obtain ⟨h1, h2, h3, h4, h5, h6⟩ := hg
  have heq : execute_command o cmd payload s =
      finishExec o s.plan (addMessage s.state "orchestrator" lockedEditNotice)
        s.log "Plan editing is disabled after lock." false [] := by
    simp only [execute_command, h1, h2, h3, hlock]
    simp [h4, h5, h6]
  refine ⟨by rw [heq]; rfl, by rw [heq]; rfl, by rw [heq]; rfl, ?_⟩
  intro hidle
  have hc : computeNewRedoEvents s.log
      (addMessage s.state "orchestrator" lockedEditNotice) =
      computeNewRedoEvents s.log s.state := by
    apply computeNewRedoEvents_congr
    · rw [addMessage_orch_events]
    · rw [addMessage_extra]
  have h7 := auto_trigger_idle o s.plan
    (addMessage s.state "orchestrator" lockedEditNotice) s.log (by rw [hc]; exact hidle)
  rw [heq]
  constructor
  · rw [finishExec_plan, h7]
  · rw [finishExec_state, h7]

theorem c5_locked_plan_gating_witness :
    (execute_command {} "insert_subtask" {} { plan := { plan_id := "p5", title := "P", subtasks := [{ id := "t1", title := "a" }] }, state := { session_id := "s5", plan_id := "p5", plan_locked := true } }).ok = false ∧
    (execute_command {} "insert_subtask" {} { plan := { plan_id := "p5", title := "P", subtasks := [{ id := "t1", title := "a" }] }, state := { session_id := "s5", plan_id := "p5", plan_locked := true } }).message = "Plan editing is disabled after lock." ∧
    (execute_command {} "insert_subtask" {} { plan := { plan_id := "p5", title := "P", subtasks := [{ id := "t1", title := "a" }] }, state := { session_id := "s5", plan_id := "p5", plan_locked := true } }).scheduled = [] ∧
    ((computeNewRedoEvents [] { session_id := "s5", plan_id := "p5", plan_locked := true }).1 = [] →
      (execute_command {} "insert_subtask" {} { plan := { plan_id := "p5", title := "P", subtasks := [{ id := "t1", title := "a" }] }, state := { session_id := "s5", plan_id := "p5", plan_locked := true } }).sess.plan = { plan_id := "p5", title := "P", subtasks := [{ id := "t1", title := "a" }] } ∧
      (execute_command {} "insert_subtask" {} { plan := { plan_id := "p5", title := "P", subtasks := [{ id := "t1", title := "a" }] }, state := { session_id := "s5", plan_id := "p5", plan_locked := true } }).sess.state = addMessage { session_id := "s5", plan_id := "p5", plan_locked := true } "orchestrator" lockedEditNotice) :=
  c5_locked_plan_gating {} {} { plan := { plan_id := "p5", title := "P", subtasks := [{ id := "t1", title := "a" }] }, state := { session_id := "s5", plan_id := "p5", plan_locked := true } } "insert_subtask" (by decide) rfl

/-! ## C6 — `apply_reviewer_revision` -/

theorem get!_set_self {α : Type} [Inhabited α] :
    ∀ (l : List α) (i : Nat) (x : α), i < l.length → (l.set i x).get! i = x
  | [], _, _, h => absurd h (by simp)
  | _ :: _, 0, _, _ => rfl
  | _ :: t, n + 1, x, h => by
    simp only [List.set_cons_succ, List.get!_cons_succ]
    exact get!_set_self t n x (Nat.lt_of_succ_lt_succ h)

theorem computeNewRedoEvents_nil (st : OState) :
    (computeNewRedoEvents [] st).1 = [] := rfl

/-- On an empty envelope log the auto-redo snapshot hook is idle. -/
@[simp] theorem auto_trigger_nil (o : Oracles) (plan : Plan) (st : OState) :
    auto_trigger_redo_from_logs o plan st [] = (plan, st) :=
  auto_trigger_idle o plan st [] (computeNewRedoEvents_nil st)

/-- Guard reduction: `apply_reviewer_revision` reaches its branch body. -/
theorem exec_apply_reviewer_revision (o : Oracles) (payload : Payload)
    (s : Sess) :
    execute_command o "apply_reviewer_revision" payload s =
      cmdApplyReviewerRevision o payload s.plan s.state s.log := by
  simp only [execute_command,
    show pyStrip "apply_reviewer_revision" = "apply_reviewer_revision" from rfl,
    show lstripSlash (pyLower "apply_reviewer_revision") =
      "apply_reviewer_revision" from rfl,
    show PLAN_EDITING_KINDS.contains "apply_reviewer_revision" = false from rfl]
  simp

/-- C6: `apply_reviewer_revision` on a session with an empty envelope log
(so the auto-redo snapshot hook is idle): for a subtask id with no cached
reviewer revision, the command fails with `ok = false`, the not-found
message, and a completely unchanged session; for a subtask id with a cached
revision and an existing subtask at index `i`, it succeeds and writes the
cached text into that subtask's `output`, sets its `status` to `done`, and
prefixes its `notes` with the `[adopted reviewer revision]` marker. -/
theorem c6_apply_reviewer_revision (o : Oracles) (payload : Payload) (s : Sess)
    (hsid : payload.subtask_id ≠ "") (hlog : s.log = []) :
    (s.state.extra.reviewer_revisions.lookup payload.subtask_id = none →
      (execute_command o "apply_reviewer_revision" payload s).ok = false ∧
      (execute_command o "apply_reviewer_revision" payload s).message =
        "未找到该子任务的 reviewer revised_text" ∧
      (execute_command o "apply_reviewer_revision" payload s).sess = s) ∧
    (∀ (entry : RevisionEntry) (i : Nat),
      s.state.extra.reviewer_revisions.lookup payload.subtask_id = some entry →
      find_subtask_index s.plan payload.subtask_id = some i →
      (execute_command o "apply_reviewer_revision" payload s).ok = true ∧
      (execute_command o "apply_reviewer_revision" payload s).message =
        "已采纳 reviewer 修订并写回子任务 " ++ (s.plan.subtasks.get! i).id ∧
      ((execute_command o "apply_reviewer_revision" payload
          s).sess.plan.subtasks.get! i).output = entry.text ∧
      ((execute_command o "apply_reviewer_revision" payload
          s).sess.plan.subtasks.get! i).status = "done" ∧
      ((execute_command o "apply_reviewer_revision" payload
          s).sess.plan.subtasks.get! i).notes =
        pyStrip ("[adopted reviewer revision] " ++
          (s.plan.subtasks.get! i).notes)) := by
  constructor
  · intro hnone
    have heq : execute_command o "apply_reviewer_revision" payload s =
        finishExec o s.plan s.state s.log
          "未找到该子任务的 reviewer revised_text" false [] := by
      rw [exec_apply_reviewer_revision]
      simp only [cmdApplyReviewerRevision]
      simp [hsid, hnone]
    refine ⟨by rw [heq]; rfl, by rw [heq]; rfl, ?_⟩
    rw [heq]
    show Sess.mk (auto_trigger_redo_from_logs o s.plan s.state s.log).1
      (auto_trigger_redo_from_logs o s.plan s.state s.log).2 s.log = s
    rw [hlog, auto_trigger_nil, ← hlog]
  · intro entry i hlook hidx
    have hne : s.state.extra.reviewer_revisions ≠ [] := by
      intro h
      rw [h] at hlook
      simp at hlook
    have hlen : i < s.plan.subtasks.length := by
      have h := findIdx?_lt_length
        (by simpa [find_subtask_index] using hidx)
      exact h.1
    have hgs : ∀ x : Subtask, (s.plan.subtasks.set i x)[i]! = x := by
      intro x
      rw [← List.get!_eq_getElem!]
      exact get!_set_self _ _ _ hlen
    rw [exec_apply_reviewer_revision]
    simp only [cmdApplyReviewerRevision, hlog]
    simp [hsid, hne, hlook, hidx, hgs]

theorem c6_apply_reviewer_revision_witness :
    (execute_command {} "apply_reviewer_revision" { subtask_id := "t1" } { plan := { plan_id := "p6", title := "P", subtasks := [{ id := "t1", title := "a", notes := "n" }] }, state := { session_id := "s6", plan_id := "p6", extra := { reviewer_revisions := [("t1", { batch_id := "b1", text := "fixed" })] } } }).ok = true ∧
    (execute_command {} "apply_reviewer_revision" { subtask_id := "t1" } { plan := { plan_id := "p6", title := "P", subtasks := [{ id := "t1", title := "a", notes := "n" }] }, state := { session_id := "s6", plan_id := "p6", extra := { reviewer_revisions := [("t1", { batch_id := "b1", text := "fixed" })] } } }).message = "已采纳 reviewer 修订并写回子任务 " ++ (({ plan_id := "p6", title := "P", subtasks := [{ id := "t1", title := "a", notes := "n" }] } : Plan).subtasks.get! 0).id ∧
    ((execute_command {} "apply_reviewer_revision" { subtask_id := "t1" } { plan := { plan_id := "p6", title := "P", subtasks := [{ id := "t1", title := "a", notes := "n" }] }, state := { session_id := "s6", plan_id := "p6", extra := { reviewer_revisions := [("t1", { batch_id := "b1", text := "fixed" })] } } }).sess.plan.subtasks.get! 0).output = ({ batch_id := "b1", text := "fixed" } : RevisionEntry).text ∧
    ((execute_command {} "apply_reviewer_revision" { subtask_id := "t1" } { plan := { plan_id := "p6", title := "P", subtasks := [{ id := "t1", title := "a", notes := "n" }] }, state := { session_id := "s6", plan_id := "p6", extra := { reviewer_revisions := [("t1", { batch_id := "b1", text := "fixed" })] } } }).sess.plan.subtasks.get! 0).status = "done" ∧
    ((execute_command {} "apply_reviewer_revision" { subtask_id := "t1" } { plan := { plan_id := "p6", title := "P", subtasks := [{ id := "t1", title := "a", notes := "n" }] }, state := { session_id := "s6", plan_id := "p6", extra := { reviewer_revisions := [("t1", { batch_id := "b1", text := "fixed" })] } } }).sess.plan.subtasks.get! 0).notes = pyStrip ("[adopted reviewer revision] " ++ (({ plan_id := "p6", title := "P", subtasks := [{ id := "t1", title := "a", notes := "n" }] } : Plan).subtasks.get! 0).notes) :=
  (c6_apply_reviewer_revision {} { subtask_id := "t1" } { plan := { plan_id := "p6", title := "P", subtasks := [{ id := "t1", title := "a", notes := "n" }] }, state := { session_id := "s6", plan_id := "p6", extra := { reviewer_revisions := [("t1", { batch_id := "b1", text := "fixed" })] } } } (by decide) rfl).2 { batch_id := "b1", text := "fixed" } 0 rfl rfl

/-! ## C3 — plan-lock monotonicity -/

theorem consumeOneEvent_plan_locked (o : Oracles) (acc : ConsumeAcc)
    (ev : OrchEvent) :
    (consumeOneEvent o acc ev).state.plan_locked = acc.state.plan_locked := by
  unfold consumeOneEvent
  dsimp only
  repeat' split
  all_goals (first | rfl | simp)

theorem foldl_consume_plan_locked (o : Oracles) (evs : List OrchEvent) :
    ∀ acc : ConsumeAcc,
      (evs.foldl (consumeOneEvent o) acc).state.plan_locked =
        acc.state.plan_locked := by
  induction evs with
  | nil => intro acc; rfl
  | cons e t ih =>
    intro acc
    rw [List.foldl_cons, ih, consumeOneEvent_plan_locked]

@[simp] theorem consume_plan_locked (o : Oracles) (st : OState) (plan : Plan) :
    (consume_orchestrator_events o st plan).1.plan_locked = st.plan_locked := by
  unfold consume_orchestrator_events
  exact foldl_consume_plan_locked o st.orch_events ⟨st, plan, []⟩

@[simp] theorem auto_trigger_plan_locked (o : Oracles) (plan : Plan) (st : OState)
    (log : List Envelope) :
    (auto_trigger_redo_from_logs o plan st log).2.plan_locked =
      st.plan_locked := by
  unfold auto_trigger_redo_from_logs
  dsimp only
  split
  · rfl
  · rw [consume_plan_locked]

@[simp] theorem finishExec_locked (o : Oracles) (plan : Plan) (st : OState)
    (log : List Envelope) (m : String) (ok : Bool) (sch : List String) :
    (finishExec o plan st log m ok sch).sess.state.plan_locked =
      st.plan_locked := by
  rw [finishExec_state, auto_trigger_plan_locked]

@[simp] theorem handle_planning_turn_plan_locked (o : Oracles) (plan : Plan)
    (st : OState) (t : String) (log : List Envelope) :
    (handle_planning_turn o plan st t log).2.2.1.plan_locked =
      st.plan_locked := by
  unfold handle_planning_turn
  split
  · rfl
  · dsimp only
    split <;> rfl

@[simp] theorem cmdConfirmPlan_locked (o : Oracles) (plan : Plan) (st : OState)
    (log : List Envelope) :
    (cmdConfirmPlan o plan st log).sess.state.plan_locked = true := by
  simp only [cmdConfirmPlan]
  split <;> simp_all

@[simp] theorem cmdNext_locked (o : Oracles) (plan : Plan) (st : OState)
    (log : List Envelope) :
    (cmdNext o plan st log).sess.state.plan_locked = st.plan_locked := by
  simp only [cmdNext]
  repeat' split
  all_goals (first | rfl | simp)

@[simp] theorem cmdSetCurrentSubtask_locked (o : Oracles) (payload : Payload)
    (plan : Plan) (st : OState) (log : List Envelope) :
    (cmdSetCurrentSubtask o payload plan st log).sess.state.plan_locked =
      st.plan_locked := by
  simp only [cmdSetCurrentSubtask]
  repeat' split
  all_goals (first | rfl | simp)

@[simp] theorem cmdUpdateSubtask_locked (o : Oracles) (payload : Payload)
    (plan : Plan) (st : OState) (log : List Envelope) :
    (cmdUpdateSubtask o payload plan st log).sess.state.plan_locked =
      st.plan_locked := by
  simp only [cmdUpdateSubtask]
  repeat' split
  all_goals (first | rfl | simp)

@[simp] theorem cmdInsertSubtask_locked (o : Oracles) (payload : Payload)
    (plan : Plan) (st : OState) (log : List Envelope) :
    (cmdInsertSubtask o payload plan st log).sess.state.plan_locked =
      st.plan_locked := by
  simp only [cmdInsertSubtask]
  repeat' split
  all_goals (first | rfl | simp)

@[simp] theorem cmdAppendSubtask_locked (o : Oracles) (payload : Payload)
    (plan : Plan) (st : OState) (log : List Envelope) :
    (cmdAppendSubtask o payload plan st log).sess.state.plan_locked =
      st.plan_locked := by
  simp only [cmdAppendSubtask]
  repeat' split
  all_goals (first | rfl | simp)

@[simp] theorem cmdApplyReviewerRevision_locked (o : Oracles)
    (payload : Payload) (plan : Plan) (st : OState) (log : List Envelope) :
    (cmdApplyReviewerRevision o payload plan st log).sess.state.plan_locked =
      st.plan_locked := by
  simp only [cmdApplyReviewerRevision]
  repeat' split
  all_goals (first | rfl | simp)

@[simp] theorem cmdSkipSubtask_locked (o : Oracles) (payload : Payload)
    (plan : Plan) (st : OState) (log : List Envelope) :
    (cmdSkipSubtask o payload plan st log).sess.state.plan_locked =
      st.plan_locked := by
  simp only [cmdSkipSubtask]
  repeat' split
  all_goals (first | rfl | simp)

@[simp] theorem cmdAll_locked (o : Oracles) (plan : Plan) (st : OState)
    (log : List Envelope) :
    (cmdAll o plan st log).sess.state.plan_locked = st.plan_locked := by
  simp only [cmdAll]
  simp

@[simp] theorem cmdAsk_locked (o : Oracles) (payload : Payload) (plan : Plan)
    (st : OState) (log : List Envelope) :
    (cmdAsk o payload plan st log).sess.state.plan_locked = st.plan_locked := by
  simp only [cmdAsk]
  repeat' split
  all_goals (first | rfl | simp)

@[simp] theorem cmdFallback_locked (o : Oracles) (normalized : String)
    (plan : Plan) (st : OState) (log : List Envelope) :
    (cmdFallback o normalized plan st log).sess.state.plan_locked =
      st.plan_locked := by
  simp only [cmdFallback]
  simp

/-- No dispatcher branch ever turns `plan_locked` off. -/
theorem exec_locked_mono (o : Oracles) (cmd : String) (payload : Payload)
    (s : Sess) (h : s.state.plan_locked = true) :
    (execute_command o cmd payload s).sess.state.plan_locked = true := by
  unfold execute_command
  dsimp only
  simp only [apply_ite (fun r : ExecResult => r.sess.state.plan_locked),
    finishExec_locked, addMessage_plan_locked, cmdConfirmPlan_locked,
    cmdNext_locked, cmdSetCurrentSubtask_locked, cmdUpdateSubtask_locked,
    cmdInsertSubtask_locked, cmdAppendSubtask_locked,
    cmdApplyReviewerRevision_locked, cmdSkipSubtask_locked, cmdAll_locked,
    cmdAsk_locked, cmdFallback_locked, h, ite_self]

theorem execute_commands_locked_mono (o : Oracles) :
    ∀ (cmds : List (String × Payload)) (s : Sess),
      s.state.plan_locked = true →
      (execute_commands o cmds s).state.plan_locked = true
  | [], _, h => h
  | (c, p) :: rest, s, h =>
    execute_commands_locked_mono o rest _ (exec_locked_mono o c p s h)

/-- Guard reduction: `confirm_plan` reaches its branch body. -/
theorem exec_confirm_plan (o : Oracles) (payload : Payload) (s : Sess) :
    execute_command o "confirm_plan" payload s =
      cmdConfirmPlan o s.plan s.state s.log := by
  simp only [execute_command,
    show pyStrip "confirm_plan" = "confirm_plan" from rfl,
    show lstripSlash (pyLower "confirm_plan") = "confirm_plan" from rfl,
    show PLAN_EDITING_KINDS.contains "confirm_plan" = false from rfl]
  simp

/-- C3: `plan_locked` is monotone — no single dispatched command and no
sequence of dispatched commands ever turns it from `true` back to `false`;
`confirm_plan` performs the one-way transition `false → true` (response
"Plan locked.", `ok = true`); and when the plan is already locked
`confirm_plan` is idempotent: it answers "Plan already locked." with
`ok = true` and (on an empty envelope log, so the auto-redo snapshot hook
is idle) leaves the session exactly unchanged. -/
theorem c3_plan_lock_monotone (o : Oracles) :
    (∀ (cmd : String) (payload : Payload) (s : Sess),
      s.state.plan_locked = true →
      (execute_command o cmd payload s).sess.state.plan_locked = true) ∧
    (∀ (cmds : List (String × Payload)) (s : Sess),
      s.state.plan_locked = true →
      (execute_commands o cmds s).state.plan_locked = true) ∧
    (∀ (payload : Payload) (s : Sess), s.state.plan_locked = false →
      (execute_command o "confirm_plan" payload s).sess.state.plan_locked = true ∧
      (execute_command o "confirm_plan" payload s).message = "Plan locked." ∧
      (execute_command o "confirm_plan" payload s).ok = true) ∧
    (∀ (payload : Payload) (s : Sess), s.state.plan_locked = true →
      (execute_command o "confirm_plan" payload s).message = "Plan already locked." ∧
      (execute_command o "confirm_plan" payload s).ok = true ∧
      (s.log = [] → (execute_command o "confirm_plan" payload s).sess = s)) := by
  refine ⟨exec_locked_mono o, execute_commands_locked_mono o, ?_, ?_⟩
  · intro payload s h
    have heq : execute_command o "confirm_plan" payload s =
        finishExec o s.plan
          (addMessage { s.state with plan_locked := true } "orchestrator"
            "Plan has been locked; execution phase can begin.")
          s.log "Plan locked." true [] := by
      rw [exec_confirm_plan]
      unfold cmdConfirmPlan
      simp [h]
    refine ⟨?_, by rw [heq]; rfl, by rw [heq]; rfl⟩
    rw [heq, finishExec_locked, addMessage_plan_locked]
  · intro payload s h
    have heq : execute_command o "confirm_plan" payload s =
        finishExec o s.plan s.state s.log "Plan already locked." true [] := by
      rw [exec_confirm_plan]
      unfold cmdConfirmPlan
      simp [h]
    refine ⟨by rw [heq]; rfl, by rw [heq]; rfl, ?_⟩
    intro hlog
    rw [heq]
    show Sess.mk (auto_trigger_redo_from_logs o s.plan s.state s.log).1
      (auto_trigger_redo_from_logs o s.plan s.state s.log).2 s.log = s
    rw [hlog, auto_trigger_nil, ← hlog]

theorem c3_plan_lock_monotone_witness :
    (execute_command {} "next" {} { plan := { plan_id := "p3", title := "P", subtasks := [{ id := "t1", title := "a" }] }, state := { session_id := "s3", plan_id := "p3", plan_locked := true } }).sess.state.plan_locked = true ∧
    (execute_commands {} [("plan", {}), ("append_subtask", { title := "x" })] { plan := { plan_id := "p3", title := "P", subtasks := [{ id := "t1", title := "a" }] }, state := { session_id := "s3", plan_id := "p3", plan_locked := true } }).state.plan_locked = true ∧
    ((execute_command {} "confirm_plan" {} { plan := { plan_id := "p3", title := "P", subtasks := [{ id := "t1", title := "a" }] }, state := { session_id := "s3", plan_id := "p3" } }).sess.state.plan_locked = true ∧
      (execute_command {} "confirm_plan" {} { plan := { plan_id := "p3", title := "P", subtasks := [{ id := "t1", title := "a" }] }, state := { session_id := "s3", plan_id := "p3" } }).message = "Plan locked." ∧
      (execute_command {} "confirm_plan" {} { plan := { plan_id := "p3", title := "P", subtasks := [{ id := "t1", title := "a" }] }, state := { session_id := "s3", plan_id := "p3" } }).ok = true) ∧
    ((execute_command {} "confirm_plan" {} { plan := { plan_id := "p3", title := "P", subtasks := [{ id := "t1", title := "a" }] }, state := { session_id := "s3", plan_id := "p3", plan_locked := true } }).message = "Plan already locked." ∧
      (execute_command {} "confirm_plan" {} { plan := { plan_id := "p3", title := "P", subtasks := [{ id := "t1", title := "a" }] }, state := { session_id := "s3", plan_id := "p3", plan_locked := true } }).ok = true ∧
      (({ plan := { plan_id := "p3", title := "P", subtasks := [{ id := "t1", title := "a" }] }, state := { session_id := "s3", plan_id := "p3", plan_locked := true } } : Sess).log = [] →
        (execute_command {} "confirm_plan" {} { plan := { plan_id := "p3", title := "P", subtasks := [{ id := "t1", title := "a" }] }, state := { session_id := "s3", plan_id := "p3", plan_locked := true } }).sess = { plan := { plan_id := "p3", title := "P", subtasks := [{ id := "t1", title := "a" }] }, state := { session_id := "s3", plan_id := "p3", plan_locked := true } })) :=
  ⟨(c3_plan_lock_monotone {}).1 "next" {} { plan := { plan_id := "p3", title := "P", subtasks := [{ id := "t1", title := "a" }] }, state := { session_id := "s3", plan_id := "p3", plan_locked := true } } rfl,
   (c3_plan_lock_monotone {}).2.1 [("plan", {}), ("append_subtask", { title := "x" })] { plan := { plan_id := "p3", title := "P", subtasks := [{ id := "t1", title := "a" }] }, state := { session_id := "s3", plan_id := "p3", plan_locked := true } } rfl,
   (c3_plan_lock_monotone {}).2.2.1 {} { plan := { plan_id := "p3", title := "P", subtasks := [{ id := "t1", title := "a" }] }, state := { session_id := "s3", plan_id := "p3" } } rfl,
   (c3_plan_lock_monotone {}).2.2.2 {} { plan := { plan_id := "p3", title := "P", subtasks := [{ id := "t1", title := "a" }] }, state := { session_id := "s3", plan_id := "p3", plan_locked := true } } rfl⟩

/-! ## C8 — the reviewer batch counter -/

theorem foldl_preserve {α β : Type} (f : β → α → β) (P : β → Prop)
    (hf : ∀ b a, P b → P (f b a)) :
    ∀ (l : List α) (b : β), P b → P (l.foldl f b)
  | [], _, hb => hb
  | a :: t, b, hb => foldl_preserve f P hf t (f b a) (hf b a hb)

/-- `_finalize_reviewer_batch` bumps the counter by exactly one. -/
theorem finalize_counter (st : OState) (bt : List BatchEntry)
    (bc d r : String) (rt : Option String) :
    (finalize_reviewer_batch st bt bc d r rt).1.extra.reviewer_batch_counter =
      st.extra.reviewer_batch_counter + 1 := by
  unfold finalize_reviewer_batch
  dsimp only
  refine foldl_preserve _
    (fun (acc : OState) => acc.extra.reviewer_batch_counter =
      st.extra.reviewer_batch_counter + 1) ?_ bt _ rfl
  intro b a hb
  dsimp only
  split
  · exact hb
  · rw [cache_rre_batch_counter]
    exact hb

/-- `_finalize_reviewer_batch` empties the pending batch. -/
theorem finalize_batch_tasks (st : OState) (bt : List BatchEntry)
    (bc d r : String) (rt : Option String) :
    (finalize_reviewer_batch st bt bc d r rt).1.extra.reviewer_batch_tasks =
      [] := rfl

/-- `_finalize_reviewer_batch` does not leave novel mode. -/
theorem finalize_novel_mode (st : OState) (bt : List BatchEntry)
    (bc d r : String) (rt : Option String) :
    (finalize_reviewer_batch st bt bc d r rt).1.extra.novel_mode =
      st.extra.novel_mode := by
  unfold finalize_reviewer_batch
  dsimp only
  refine foldl_preserve _
    (fun (acc : OState) => acc.extra.novel_mode = st.extra.novel_mode) ?_ bt _ rfl
  intro b a hb
  dsimp only
  split
  · exact hb
  · rw [cache_rre_novel_mode]
    exact hb

/-- C8 is falsified by the periodic reset: with a batch counter of 5 in
strict novel mode, one `_call_coordinator` invocation resets the counter to
0, so the counter is not monotonically increasing across operations. -/
theorem c8_counterexample :
    ({ session_id := "s8", plan_id := "p8", extra := { novel_mode := true, reviewer_batch_counter := 5 } } : OState).extra.reviewer_batch_counter = 5 ∧
    (call_coordinator {} { id := "t7", title := "x" } "out" { session_id := "s8", plan_id := "p8", extra := { novel_mode := true, reviewer_batch_counter := 5 } } none).state.extra.reviewer_batch_counter = 0 :=
  ⟨rfl, rfl⟩

/-- C8 (amended): each finalised batch bumps the counter kept in
`state.extra` by exactly one, but the counter is *not* monotone across all
operations: whenever `_call_coordinator` runs in strict novel mode with a
non-zero counter divisible by 5, it resets the counter to 0, and the
accumulated novel context passed to the reviewer collapses to exactly the
cached compact t1–t4 summary (which is thereby still carried forward into
the reviewer prompt); in every other case `_call_coordinator` leaves the
state untouched. -/
theorem c8_batch_counter_law :
    (∀ (st : OState) (bt : List BatchEntry) (bc d r : String)
      (rt : Option String),
      (finalize_reviewer_batch st bt bc d r rt).1.extra.reviewer_batch_counter =
        st.extra.reviewer_batch_counter + 1) ∧
    (∀ (o : Oracles) (sub : Subtask) (w : String) (st : OState),
      st.extra.novel_mode = true →
      st.extra.reviewer_batch_counter ≠ 0 →
      st.extra.reviewer_batch_counter % 5 = 0 →
      (∀ bc : Option String,
        (call_coordinator o sub w st bc).state.extra.reviewer_batch_counter = 0) ∧
      (call_coordinator o sub w st none).extra_ctx =
        some st.extra.novel_summary_t1_t4) ∧
    (∀ (o : Oracles) (sub : Subtask) (w : String) (st : OState)
      (bc : Option String),
      (st.extra.novel_mode && st.extra.reviewer_batch_counter ≠ 0 &&
        st.extra.reviewer_batch_counter % 5 = 0) = false →
      (call_coordinator o sub w st bc).state = st) := by
  refine ⟨finalize_counter, ?_, ?_⟩
  · intro o sub w st hnovel h0 h5
    constructor
    · intro bc
      unfold call_coordinator
      simp [hnovel, h0, h5]
    · unfold call_coordinator
      simp [hnovel, h0, h5, optTruthy]
  · intro o sub w st bc hreset
    unfold call_coordinator
    simp only [hreset]
    simp

theorem c8_batch_counter_law_witness :
    (finalize_reviewer_batch { session_id := "s8", plan_id := "p8", extra := { novel_mode := true, reviewer_batch_counter := 7 } } [{ subtask_id := "t9", title := "y" }] "ctx" "ACCEPT" "ok" none).1.extra.reviewer_batch_counter = ({ session_id := "s8", plan_id := "p8", extra := { novel_mode := true, reviewer_batch_counter := 7 } } : OState).extra.reviewer_batch_counter + 1 ∧
    ((∀ bc : Option String, (call_coordinator {} { id := "t7", title := "x" } "out" { session_id := "s8", plan_id := "p8", extra := { novel_mode := true, reviewer_batch_counter := 5, novel_summary_t1_t4 := "SUM" } } bc).state.extra.reviewer_batch_counter = 0) ∧
      (call_coordinator {} { id := "t7", title := "x" } "out" { session_id := "s8", plan_id := "p8", extra := { novel_mode := true, reviewer_batch_counter := 5, novel_summary_t1_t4 := "SUM" } } none).extra_ctx = some ({ session_id := "s8", plan_id := "p8", extra := { novel_mode := true, reviewer_batch_counter := 5, novel_summary_t1_t4 := "SUM" } } : OState).extra.novel_summary_t1_t4) ∧
    (call_coordinator {} { id := "t7", title := "x" } "out" { session_id := "s8", plan_id := "p8", extra := { novel_mode := true, reviewer_batch_counter := 3 } } none).state = { session_id := "s8", plan_id := "p8", extra := { novel_mode := true, reviewer_batch_counter := 3 } } :=
  ⟨c8_batch_counter_law.1 { session_id := "s8", plan_id := "p8", extra := { novel_mode := true, reviewer_batch_counter := 7 } } [{ subtask_id := "t9", title := "y" }] "ctx" "ACCEPT" "ok" none,
   c8_batch_counter_law.2.1 {} { id := "t7", title := "x" } "out" { session_id := "s8", plan_id := "p8", extra := { novel_mode := true, reviewer_batch_counter := 5, novel_summary_t1_t4 := "SUM" } } rfl (by decide) rfl,
   c8_batch_counter_law.2.2 {} { id := "t7", title := "x" } "out" { session_id := "s8", plan_id := "p8", extra := { novel_mode := true, reviewer_batch_counter := 3 } } none (by decide)⟩

/-! ## C2 — the reviewer batch law -/

@[simp] theorem call_coordinator_batch_tasks (o : Oracles) (sub : Subtask)
    (w : String) (st : OState) (bc : Option String) :
    (call_coordinator o sub w st bc).state.extra.reviewer_batch_tasks =
      st.extra.reviewer_batch_tasks := by
  unfold call_coordinator
  dsimp only
  split <;> rfl

@[simp] theorem call_coordinator_novel_mode (o : Oracles) (sub : Subtask)
    (w : String) (st : OState) (bc : Option String) :
    (call_coordinator o sub w st bc).state.extra.novel_mode =
      st.extra.novel_mode := by
  unfold call_coordinator
  dsimp only
  split <;> rfl

/-- `_finalize_reviewer_batch` records the whole batch's decision and
reason in the in-flight info. -/
theorem finalize_inflight (st : OState) (bt : List BatchEntry)
    (bc d r : String) (rt : Option String) :
    (finalize_reviewer_batch st bt bc d r rt).1.extra.novel_inflight_batch =
      some { batch_id := "batch_" ++ natRepr (st.extra.reviewer_batch_counter + 1), summary := bc, reason := r, decision := d } := by
  unfold finalize_reviewer_batch
  dsimp only
  refine foldl_preserve _
    (fun (acc : OState) => acc.extra.novel_inflight_batch =
      some { batch_id := "batch_" ++ natRepr (st.extra.reviewer_batch_counter + 1), summary := bc, reason := r, decision := d }) ?_ bt _ rfl
  intro b a hb
  dsimp only
  split
  · exact hb
  · rw [cache_rre_inflight]
    exact hb

/-- One auto-review step in batch mode: below the threshold the output is
enqueued with no reviewer call; at the threshold exactly one reviewer call
finalises and empties the batch. -/
theorem auto_review_step (o : Oracles) (sub : Subtask) (w a : String)
    (st : OState)
    (hid : (sub.id = "t1" || sub.id = "t2" || sub.id = "t3" ||
      sub.id = "t4") = false)
    (hnovel : st.extra.novel_mode = true) :
    (st.extra.reviewer_batch_tasks.length + 1 < 3 →
      (auto_review_decision o sub w a st).reviewer_calls = 0 ∧
      (auto_review_decision o sub w a st).decision = "ACCEPT" ∧
      (auto_review_decision o sub w a st).reason = WAITING_NOTE ∧
      (auto_review_decision o sub w a st).state.extra.reviewer_batch_tasks.length
        = st.extra.reviewer_batch_tasks.length + 1 ∧
      (auto_review_decision o sub w a st).state.extra.novel_mode = true) ∧
    (3 ≤ st.extra.reviewer_batch_tasks.length + 1 →
      (auto_review_decision o sub w a st).reviewer_calls = 1 ∧
      (auto_review_decision o sub w a st).state.extra.reviewer_batch_tasks = [] ∧
      (auto_review_decision o sub w a st).state.extra.novel_mode = true ∧
      (∃ ib : InflightBatch,
        (auto_review_decision o sub w a st).state.extra.novel_inflight_batch =
          some ib ∧
        ib.decision = (auto_review_decision o sub w a st).decision ∧
        ib.reason = (auto_review_decision o sub w a st).reason)) := by
  constructor
  · intro hlt
    have h3 : ¬ (3 ≤ st.extra.reviewer_batch_tasks.length + 1) := by omega
    unfold auto_review_decision enqueue_reviewer_batch_task
    simp [hid, hnovel, h3]
  · intro hge
    unfold auto_review_decision enqueue_reviewer_batch_task
    simp [hid, hnovel, hge, finalize_batch_tasks, finalize_novel_mode,
      finalize_inflight]

/-- Folding the auto review over `n` post-setup outputs in novel mode,
starting from a batch of size `b < 3`, makes exactly `(b + n) / 3` reviewer
calls and leaves a pending batch of size `(b + n) % 3`. -/
theorem auto_review_fold_spec (o : Oracles) :
    ∀ (items : List (Subtask × String × String)) (st : OState) (c0 : Nat),
      (∀ it ∈ items, (it.1.id = "t1" || it.1.id = "t2" || it.1.id = "t3" ||
        it.1.id = "t4") = false) →
      st.extra.novel_mode = true →
      st.extra.reviewer_batch_tasks.length < 3 →
      (items.foldl
        (fun acc item =>
          let r := auto_review_decision o item.1 item.2.1 item.2.2 acc.2
          (acc.1 + r.reviewer_calls, r.state))
        (c0, st)).1 =
        c0 + (st.extra.reviewer_batch_tasks.length + items.length) / 3 ∧
      (items.foldl
        (fun acc item =>
          let r := auto_review_decision o item.1 item.2.1 item.2.2 acc.2
          (acc.1 + r.reviewer_calls, r.state))
        (c0, st)).2.extra.reviewer_batch_tasks.length =
        (st.extra.reviewer_batch_tasks.length + items.length) % 3 ∧
      (items.foldl
        (fun acc item =>
          let r := auto_review_decision o item.1 item.2.1 item.2.2 acc.2
          (acc.1 + r.reviewer_calls, r.state))
        (c0, st)).2.extra.novel_mode = true := by
  intro items
  induction items with
  | nil =>
    intro st c0 _ hnovel hlen
    refine ⟨?_, ?_, hnovel⟩
    · simp [Nat.div_eq_of_lt hlen]
    · simp [Nat.mod_eq_of_lt hlen]
  | cons hd tl ih =>
    intro st c0 hids hnovel hlen
    have hid : (hd.1.id = "t1" || hd.1.id = "t2" || hd.1.id = "t3" ||
        hd.1.id = "t4") = false := hids hd (List.mem_cons_self hd tl)
    have hids' : ∀ it ∈ tl, (it.1.id = "t1" || it.1.id = "t2" ||
        it.1.id = "t3" || it.1.id = "t4") = false :=
      fun it hit => hids it (List.mem_cons_of_mem hd hit)
    have hstep := auto_review_step o hd.1 hd.2.1 hd.2.2 st hid hnovel
    rw [List.foldl_cons]
    by_cases hfull : st.extra.reviewer_batch_tasks.length + 1 < 3
    · obtain ⟨hc, _, _, hl, hn⟩ := hstep.1 hfull
      have := ih (auto_review_decision o hd.1 hd.2.1 hd.2.2 st).state
        (c0 + (auto_review_decision o hd.1 hd.2.1 hd.2.2 st).reviewer_calls)
        hids' hn (by omega)
      obtain ⟨h1, h2, h3⟩ := this
      refine ⟨?_, ?_, h3⟩
      · rw [h1, hc, hl]
        have harith : st.extra.reviewer_batch_tasks.length + 1 + tl.length =
            st.extra.reviewer_batch_tasks.length + (tl.length + 1) := by omega
        rw [harith]
        simp [List.length_cons]
      · rw [h2, hl]
        have harith : st.extra.reviewer_batch_tasks.length + 1 + tl.length =
            st.extra.reviewer_batch_tasks.length + (tl.length + 1) := by omega
        rw [harith]
        simp [List.length_cons]
    · obtain ⟨hc, he, hn, _⟩ := hstep.2 (by omega)
      have hb2 : st.extra.reviewer_batch_tasks.length = 2 := by omega
      have := ih (auto_review_decision o hd.1 hd.2.1 hd.2.2 st).state
        (c0 + (auto_review_decision o hd.1 hd.2.1 hd.2.2 st).reviewer_calls)
        hids' hn (by rw [he]; simp)
      obtain ⟨h1, h2, h3⟩ := this
      refine ⟨?_, ?_, h3⟩
      · rw [h1, hc, he, hb2]
        simp only [List.length_nil, List.length_cons, Nat.zero_add]
        omega
      · rw [h2, he, hb2]
        simp only [List.length_nil, List.length_cons, Nat.zero_add]
        omega

/-- C2: once batching is active (novel mode, a subtask after the t1–t4
setup phase), the reviewer is invoked exactly once per 3 accumulated
outputs, not once per output: while the pending batch stays below 3 the
output is enqueued with zero reviewer calls and the subtask is accepted
with the waiting-for-batch note; the output that fills the batch to 3
triggers exactly one reviewer invocation whose decision and reason are
recorded for the whole batch (in the in-flight batch info), after which the
pending batch list is empty.  Aggregated: `n` outputs from a batch of size
`b < 3` make exactly `(b + n) / 3` reviewer calls and leave `(b + n) % 3`
pending. -/
theorem c2_reviewer_batch_law (o : Oracles) :
    (∀ (sub : Subtask) (w a : String) (st : OState),
      (sub.id = "t1" || sub.id = "t2" || sub.id = "t3" ||
        sub.id = "t4") = false →
      st.extra.novel_mode = true →
      (st.extra.reviewer_batch_tasks.length + 1 < 3 →
        (auto_review_decision o sub w a st).reviewer_calls = 0 ∧
        (auto_review_decision o sub w a st).decision = "ACCEPT" ∧
        (auto_review_decision o sub w a st).reason = WAITING_NOTE ∧
        (auto_review_decision o sub w a st).state.extra.reviewer_batch_tasks.length
          = st.extra.reviewer_batch_tasks.length + 1) ∧
      (3 ≤ st.extra.reviewer_batch_tasks.length + 1 →
        (auto_review_decision o sub w a st).reviewer_calls = 1 ∧
        (auto_review_decision o sub w a st).state.extra.reviewer_batch_tasks = [] ∧
        (∃ ib : InflightBatch,
          (auto_review_decision o sub w a st).state.extra.novel_inflight_batch =
            some ib ∧
          ib.decision = (auto_review_decision o sub w a st).decision ∧
          ib.reason = (auto_review_decision o sub w a st).reason))) ∧
    (∀ (items : List (Subtask × String × String)) (st : OState),
      (∀ it ∈ items, (it.1.id = "t1" || it.1.id = "t2" || it.1.id = "t3" ||
        it.1.id = "t4") = false) →
      st.extra.novel_mode = true →
      st.extra.reviewer_batch_tasks.length < 3 →
      (auto_review_fold o items st).1 =
        (st.extra.reviewer_batch_tasks.length + items.length) / 3 ∧
      (auto_review_fold o items st).2.extra.reviewer_batch_tasks.length =
        (st.extra.reviewer_batch_tasks.length + items.length) % 3) := by
  constructor
  · intro sub w a st hid hnovel
    have hstep := auto_review_step o sub w a st hid hnovel
    refine ⟨fun h => ?_, fun h => ?_⟩
    · obtain ⟨h1, h2, h3, h4, _⟩ := hstep.1 h
      exact ⟨h1, h2, h3, h4⟩
    · obtain ⟨h1, h2, _, h4⟩ := hstep.2 h
      exact ⟨h1, h2, h4⟩
  · intro items st hids hnovel hlen
    have hspec := auto_review_fold_spec o items st 0 hids hnovel hlen
    have h1 := hspec.1
    rw [Nat.zero_add] at h1
    unfold auto_review_fold
    exact ⟨h1, hspec.2.1⟩

theorem c2_reviewer_batch_law_witness :
    ((auto_review_decision {} { id := "t5", title := "x" } "o" "a" { session_id := "sc2", plan_id := "pc2", extra := { novel_mode := true } }).reviewer_calls = 0 ∧
      (auto_review_decision {} { id := "t5", title := "x" } "o" "a" { session_id := "sc2", plan_id := "pc2", extra := { novel_mode := true } }).decision = "ACCEPT" ∧
      (auto_review_decision {} { id := "t5", title := "x" } "o" "a" { session_id := "sc2", plan_id := "pc2", extra := { novel_mode := true } }).reason = WAITING_NOTE ∧
      (auto_review_decision {} { id := "t5", title := "x" } "o" "a" { session_id := "sc2", plan_id := "pc2", extra := { novel_mode := true } }).state.extra.reviewer_batch_tasks.length = ({ session_id := "sc2", plan_id := "pc2", extra := { novel_mode := true } } : OState).extra.reviewer_batch_tasks.length + 1) ∧
    ((auto_review_decision {} { id := "t5", title := "x" } "o" "a" { session_id := "sc2", plan_id := "pc2", extra := { novel_mode := true, reviewer_batch_tasks := [{ subtask_id := "t5", title := "x" }, { subtask_id := "t6", title := "y" }] } }).reviewer_calls = 1 ∧
      (auto_review_decision {} { id := "t5", title := "x" } "o" "a" { session_id := "sc2", plan_id := "pc2", extra := { novel_mode := true, reviewer_batch_tasks := [{ subtask_id := "t5", title := "x" }, { subtask_id := "t6", title := "y" }] } }).state.extra.reviewer_batch_tasks = [] ∧
      (∃ ib : InflightBatch,
        (auto_review_decision {} { id := "t5", title := "x" } "o" "a" { session_id := "sc2", plan_id := "pc2", extra := { novel_mode := true, reviewer_batch_tasks := [{ subtask_id := "t5", title := "x" }, { subtask_id := "t6", title := "y" }] } }).state.extra.novel_inflight_batch = some ib ∧
        ib.decision = (auto_review_decision {} { id := "t5", title := "x" } "o" "a" { session_id := "sc2", plan_id := "pc2", extra := { novel_mode := true, reviewer_batch_tasks := [{ subtask_id := "t5", title := "x" }, { subtask_id := "t6", title := "y" }] } }).decision ∧
        ib.reason = (auto_review_decision {} { id := "t5", title := "x" } "o" "a" { session_id := "sc2", plan_id := "pc2", extra := { novel_mode := true, reviewer_batch_tasks := [{ subtask_id := "t5", title := "x" }, { subtask_id := "t6", title := "y" }] } }).reason)) ∧
    ((auto_review_fold {} [({ id := "t5", title := "x" }, "o", "a"), ({ id := "t5", title := "x" }, "o", "a"), ({ id := "t5", title := "x" }, "o", "a"), ({ id := "t5", title := "x" }, "o", "a"), ({ id := "t5", title := "x" }, "o", "a"), ({ id := "t5", title := "x" }, "o", "a"), ({ id := "t5", title := "x" }, "o", "a")] { session_id := "sc2", plan_id := "pc2", extra := { novel_mode := true } }).1 = (({ session_id := "sc2", plan_id := "pc2", extra := { novel_mode := true } } : OState).extra.reviewer_batch_tasks.length + ([({ id := "t5", title := "x" }, "o", "a"), ({ id := "t5", title := "x" }, "o", "a"), ({ id := "t5", title := "x" }, "o", "a"), ({ id := "t5", title := "x" }, "o", "a"), ({ id := "t5", title := "x" }, "o", "a"), ({ id := "t5", title := "x" }, "o", "a"), ({ id := "t5", title := "x" }, "o", "a")] : List (Subtask × String × String)).length) / 3 ∧
      (auto_review_fold {} [({ id := "t5", title := "x" }, "o", "a"), ({ id := "t5", title := "x" }, "o", "a"), ({ id := "t5", title := "x" }, "o", "a"), ({ id := "t5", title := "x" }, "o", "a"), ({ id := "t5", title := "x" }, "o", "a"), ({ id := "t5", title := "x" }, "o", "a"), ({ id := "t5", title := "x" }, "o", "a")] { session_id := "sc2", plan_id := "pc2", extra := { novel_mode := true } }).2.extra.reviewer_batch_tasks.length = (({ session_id := "sc2", plan_id := "pc2", extra := { novel_mode := true } } : OState).extra.reviewer_batch_tasks.length + ([({ id := "t5", title := "x" }, "o", "a"), ({ id := "t5", title := "x" }, "o", "a"), ({ id := "t5", title := "x" }, "o", "a"), ({ id := "t5", title := "x" }, "o", "a"), ({ id := "t5", title := "x" }, "o", "a"), ({ id := "t5", title := "x" }, "o", "a"), ({ id := "t5", title := "x" }, "o", "a")] : List (Subtask × String × String)).length) % 3) :=
  ⟨((c2_reviewer_batch_law {}).1 { id := "t5", title := "x" } "o" "a" { session_id := "sc2", plan_id := "pc2", extra := { novel_mode := true } } (by decide) rfl).1 (by decide),
   ((c2_reviewer_batch_law {}).1 { id := "t5", title := "x" } "o" "a" { session_id := "sc2", plan_id := "pc2", extra := { novel_mode := true, reviewer_batch_tasks := [{ subtask_id := "t5", title := "x" }, { subtask_id := "t6", title := "y" }] } } (by decide) rfl).2 (by decide),
   (c2_reviewer_batch_law {}).2 [({ id := "t5", title := "x" }, "o", "a"), ({ id := "t5", title := "x" }, "o", "a"), ({ id := "t5", title := "x" }, "o", "a"), ({ id := "t5", title := "x" }, "o", "a"), ({ id := "t5", title := "x" }, "o", "a"), ({ id := "t5", title := "x" }, "o", "a"), ({ id := "t5", title := "x" }, "o", "a")] { session_id := "sc2", plan_id := "pc2", extra := { novel_mode := true } } (by decide) rfl (by decide)⟩

/-! ## C9 — chapter expansion -/

theorem isDigit_toNat {c : Char} (h : c.isDigit = true) :
    48 ≤ c.toNat ∧ c.toNat ≤ 57 := by
  simp only [Char.isDigit, Bool.and_eq_true, decide_eq_true_eq] at h
  obtain ⟨h1, h2⟩ := h
  constructor
  · exact UInt32.le_toNat_of_le (by norm_num [UInt32.size]) h1
  · exact UInt32.toNat_le_of_le (by norm_num [UInt32.size]) h2

theorem toLower_of_isDigit {c : Char} (h : c.isDigit = true) :
    c.toLower = c := by
  obtain ⟨h1, h2⟩ := isDigit_toNat h
  unfold Char.toLower
  rw [if_neg]
  omega

theorem not_space_of_isDigit {c : Char} (h : c.isDigit = true) :
    pyIsSpace c = false := by
  obtain ⟨h1, h2⟩ := isDigit_toNat h
  simp only [pyIsSpace, Bool.or_eq_false_iff, decide_eq_false_iff_not]
  refine ⟨⟨⟨⟨⟨?_, ?_⟩, ?_⟩, ?_⟩, ?_⟩, ?_⟩ <;>
    · intro hd
      subst hd
      exact absurd h1 (by decide)

/-- The `chapter\s*\d+` pattern matches right at a `Chapter <digits>`
prefix. -/
theorem chapterIndexMatchAt_pre (ci : Nat) (rest : List Char) :
    chapterIndexMatchAt ("Chapter ".data ++ (natDigits ci ++ rest)) = true := by
  unfold chapterIndexMatchAt
  dsimp only
  have hmap : ("Chapter ".data ++ (natDigits ci ++ rest)).map Char.toLower =
      "chapter".data ++ (' ' :: (natDigits ci ++ rest).map Char.toLower) := by
    rw [List.map_append]
    rw [show "Chapter ".data.map Char.toLower = "chapter".data ++ [' '] from
      by decide]
    rw [List.append_assoc]
    rfl
  rw [hmap, Bool.and_eq_true]
  constructor
  · exact List.isPrefixOf_iff_prefix.mpr (List.prefix_append _ _)
  · rw [List.drop_left' (by decide), List.dropWhile_cons_of_pos (by decide)]
    cases hnd : natDigits ci with
    | nil => exact absurd hnd (natDigits_ne_nil ci)
    | cons d ds =>
      have hall := natDigits_all_digit ci
      rw [hnd, List.all_cons, Bool.and_eq_true] at hall
      have hd : d.isDigit = true := hall.1
      rw [List.cons_append, List.map_cons, toLower_of_isDigit hd,
        List.dropWhile_cons_of_neg (by simp [not_space_of_isDigit hd])]
      exact hd

theorem hasChapterIndex_pre (ci : Nat) (rest : List Char) :
    hasChapterIndex ("Chapter ".data ++ (natDigits ci ++ rest)) = true := by
  rw [show ("Chapter ".data ++ (natDigits ci ++ rest)) =
    'C' :: ("hapter ".data ++ (natDigits ci ++ rest)) from rfl]
  unfold hasChapterIndex
  rw [show ('C' :: ("hapter ".data ++ (natDigits ci ++ rest))) =
    "Chapter ".data ++ (natDigits ci ++ rest) from rfl]
  rw [chapterIndexMatchAt_pre]
  rfl

theorem ne_empty_of_data_chapter {s : String} {tail : List Char}
    (hdata : s.data = "Chapter ".data ++ tail) : s ≠ "" := by
  intro he
  rw [he] at hdata
  have hlen := congrArg List.length hdata
  rw [show (("" : String).data).length = 0 from rfl, List.length_append,
    show ("Chapter ".data).length = 8 from rfl] at hlen
  omega

/-- `_chapter_title` always carries the `Chapter <n>` sequence marker. -/
theorem chapter_title_has_index_chapter_title (ci : Nat) (b : String) :
    chapter_title_has_index (chapter_title ci b) = true := by
  unfold chapter_title
  dsimp only
  split
  · next h =>
    unfold pyStartsWith at h
    obtain ⟨rest, hrest⟩ := List.isPrefixOf_iff_prefix.mp h
    have hdata : (pyStrip b).data = "Chapter ".data ++ (natDigits ci ++ rest) := by
      rw [← hrest, String.data_append,
        show (natRepr ci).data = natDigits ci from rfl, List.append_assoc]
    unfold chapter_title_has_index
    rw [if_neg (ne_empty_of_data_chapter hdata), hdata, hasChapterIndex_pre]
  · split
    · have hdata : (("Chapter " ++ natRepr ci) ++ ": " ++ pyStrip b).data =
          "Chapter ".data ++ (natDigits ci ++ (": ".data ++ (pyStrip b).data)) := by
        simp only [String.data_append,
          show (natRepr ci).data = natDigits ci from rfl, List.append_assoc]
      unfold chapter_title_has_index
      rw [if_neg (ne_empty_of_data_chapter hdata), hdata, hasChapterIndex_pre]
    · have hdata : ("Chapter " ++ natRepr ci).data =
          "Chapter ".data ++ (natDigits ci ++ []) := by
        rw [String.data_append, List.append_nil]
        rfl
      unfold chapter_title_has_index
      rw [if_neg (ne_empty_of_data_chapter hdata), hdata, hasChapterIndex_pre]

theorem listContains_suffix : ∀ (pre needle : List Char),
    listContains (pre ++ needle) needle = true
  | [], needle => by
    rw [List.nil_append]
    unfold listContains
    rw [List.isPrefixOf_iff_prefix.mpr (List.prefix_refl needle)]
    rfl
  | c :: pre, needle => by
    rw [List.cons_append]
    unfold listContains
    dsimp only
    rw [listContains_suffix pre needle, Bool.or_true]

theorem chapter_description_ne (d : String) : chapter_description d ≠ "" := by
  unfold chapter_description
  dsimp only
  split
  · intro he
    have hd := congrArg String.data he
    rw [String.data_append, show ("" : String).data = [] from rfl] at hd
    obtain ⟨_, h2⟩ := List.append_eq_nil.mp hd
    exact absurd h2 (by decide)
  · intro he
    exact absurd he (by decide)

/-- `_chapter_description` always carries the cover-full-content marker. -/
theorem chapter_description_valid (d : String) :
    chapter_description_has_full_content (chapter_description d) = true := by
  unfold chapter_description_has_full_content
  rw [Bool.and_eq_true]
  constructor
  · simpa using chapter_description_ne d
  · unfold strContains chapter_description
    dsimp only
    split
    · rw [String.data_append]
      exact listContains_suffix _ _
    · exact listContains_suffix [] _

/-- `_normalize_chapter_subtask` enforces the strict structural rule. -/
theorem normalize_valid (raw : RawSubtask) (index : Nat) :
    is_valid_chapter_candidate (normalize_chapter_subtask raw index) = true := by
  unfold is_valid_chapter_candidate normalize_chapter_subtask
  dsimp only
  rw [Bool.and_eq_true]
  constructor
  · exact chapter_title_has_index_chapter_title _ _
  · unfold RawSubtask.descOrNotes
    dsimp only
    rw [if_pos (chapter_description_ne _)]
    exact chapter_description_valid _

theorem fallback_length (base_count : Nat) (profile : Option NovelProfile) :
    (fallback_chapter_candidates base_count profile).length =
      (profile.bind (fun p => p.chapter_count)).getD 5 := by
  unfold fallback_chapter_candidates
  rw [List.length_map, List.length_range]

theorem fallback_valid (base_count : Nat) (profile : Option NovelProfile) :
    ∀ r ∈ fallback_chapter_candidates base_count profile,
      is_valid_chapter_candidate r = true := by
  intro r hr
  unfold fallback_chapter_candidates at hr
  rw [List.mem_map] at hr
  obtain ⟨i, _, rfl⟩ := hr
  unfold is_valid_chapter_candidate
  dsimp only
  rw [Bool.and_eq_true]
  constructor
  · unfold chapter_title_has_index
    have hdata : ("Chapter " ++ natRepr (i + 1)).data =
        "Chapter ".data ++ (natDigits (i + 1) ++ []) := by
      rw [String.data_append, List.append_nil]
      rfl
    rw [if_neg (ne_empty_of_data_chapter hdata), hdata, hasChapterIndex_pre]
  · unfold RawSubtask.descOrNotes
    dsimp only
    rw [if_pos (chapter_description_ne _)]
    exact chapter_description_valid _

/-- C9 is falsified on the zero-append guarantee: a planner outline whose
chapter candidates pass the relaxed title check (they mention `章`), so the
fallback does not engage, but fail the strict `Chapter <n>` rule inside the
merge, leaves the expansion appending zero subtasks. -/
theorem c9_counterexample :
    (append_chapter_tasks_from_planner_stub { planner_outline := fun _ => "第一章：开端\n第二章：发展" } { plan_id := "p9", title := "T", subtasks := [{ id := "t1", title := "a", status := "done" }, { id := "t2", title := "b", status := "done" }, { id := "t3", title := "c", status := "done" }, { id := "t4", title := "d", status := "done" }] } { session_id := "s9", plan_id := "p9", extra := { novel_mode := true } }).added = 0 ∧
    relaxed_chapter_candidates 4 (planFromOutline "" "T" "第一章：开端\n第二章：发展").subtasks ≠ [] ∧
    (append_chapter_tasks_from_planner_stub { planner_outline := fun _ => "第一章：开端\n第二章：发展" } { plan_id := "p9", title := "T", subtasks := [{ id := "t1", title := "a", status := "done" }, { id := "t2", title := "b", status := "done" }, { id := "t3", title := "c", status := "done" }, { id := "t4", title := "d", status := "done" }] } { session_id := "s9", plan_id := "p9", extra := { novel_mode := true } }).plan.subtasks.length = 4 := by
  refine ⟨by decide, by decide, by decide⟩

/-- C9 (amended): what the expansion does guarantee is structural validity
of what it keeps — `_normalize_chapter_subtask` output always satisfies the
strict rule (`Chapter <n>` marker in the title, cover-full-content marker
in the description), and the deterministic fallback list (engaged only when
the relaxed title check keeps nothing) has exactly `chapter_count`
(default 5) members, each strictly valid.  It does *not* guarantee a
non-zero append: candidates passing the relaxed check but failing the
strict rule are dropped inside the merge after the fallback decision was
already made (see the counterexample). -/
theorem c9_chapter_expansion_validity :
    (∀ (raw : RawSubtask) (index : Nat),
      is_valid_chapter_candidate (normalize_chapter_subtask raw index) = true) ∧
    (∀ (base_count : Nat) (profile : Option NovelProfile),
      (fallback_chapter_candidates base_count profile).length =
        (profile.bind (fun p => p.chapter_count)).getD 5 ∧
      ∀ r ∈ fallback_chapter_candidates base_count profile,
        is_valid_chapter_candidate r = true) :=
  ⟨normalize_valid, fun bc profile =>
    ⟨fallback_length bc profile, fallback_valid bc profile⟩⟩

theorem c9_chapter_expansion_validity_witness :
    is_valid_chapter_candidate (normalize_chapter_subtask { title := "随便写写", notes := "n" } 7) = true ∧
    (fallback_chapter_candidates 4 none).length = ((none : Option NovelProfile).bind (fun p => p.chapter_count)).getD 5 ∧
    is_valid_chapter_candidate ({ subtask_id := "t" ++ natRepr (4 + 0 + 1), title := "Chapter " ++ natRepr (0 + 1), status := "pending", description := chapter_description ("Chapter " ++ natRepr (0 + 1)), notes := "Auto-generated chapter task (planner fallback)" } : RawSubtask) = true :=
  ⟨c9_chapter_expansion_validity.1 { title := "随便写写", notes := "n" } 7,
   (c9_chapter_expansion_validity.2 4 none).1,
   (c9_chapter_expansion_validity.2 4 none).2 { subtask_id := "t" ++ natRepr (4 + 0 + 1), title := "Chapter " ++ natRepr (0 + 1), status := "pending", description := chapter_description ("Chapter " ++ natRepr (0 + 1)), notes := "Auto-generated chapter task (planner fallback)" } (by decide)⟩

/-! ## C1 — out-of-band redo via the snapshot hook -/

@[simp] theorem update_novel_summary_processed (o : Oracles) (w : Bool)
    (st : OState) (plan : Plan) :
    (update_novel_summary o w st plan).extra.processed_redo_decisions =
      st.extra.processed_redo_decisions := by
  unfold update_novel_summary
  dsimp only
  repeat' split
  all_goals rfl

/-- C1 is falsified on the resulting status: synthesising and consuming the
`trigger_redo` intent runs the stub worker and the always-accepting stub
reviewer, so the subtask ends in status `done` (with a rewritten output and
an appended orchestrator message), not `pending`. -/
theorem c1_counterexample :
    (computeNewRedoEvents [{ payload_type := "coord_decision", subtask_id := "t5", decision := "redo", reason := "more action", timestamp := "2024-01-01T00:00:00" }] { session_id := "s1c", plan_id := "p1c" }).1 ≠ [] ∧
    ((auto_trigger_redo_from_logs {} { plan_id := "p1c", title := "P", subtasks := [{ id := "t5", title := "draft", status := "done", output := "old" }] } { session_id := "s1c", plan_id := "p1c" } [{ payload_type := "coord_decision", subtask_id := "t5", decision := "redo", reason := "more action", timestamp := "2024-01-01T00:00:00" }]).1.subtasks.get! 0).status = "done" ∧
    ¬ ((auto_trigger_redo_from_logs {} { plan_id := "p1c", title := "P", subtasks := [{ id := "t5", title := "draft", status := "done", output := "old" }] } { session_id := "s1c", plan_id := "p1c" } [{ payload_type := "coord_decision", subtask_id := "t5", decision := "redo", reason := "more action", timestamp := "2024-01-01T00:00:00" }]).1.subtasks.get! 0).status = "pending" ∧
    (auto_trigger_redo_from_logs {} { plan_id := "p1c", title := "P", subtasks := [{ id := "t5", title := "draft", status := "done", output := "old" }] } { session_id := "s1c", plan_id := "p1c" } [{ payload_type := "coord_decision", subtask_id := "t5", decision := "redo", reason := "more action", timestamp := "2024-01-01T00:00:00" }]).2.orchestrator_messages.length = 1 := by
  refine ⟨by decide, by decide, by decide, by decide⟩

/-- C1 (amended): for a session whose envelope log holds a `coord_decision`
with `decision=redo` for an existing subtask, with a timestamp not at or
below the persisted watermark and no intent queued, the snapshot hook
synthesises a `trigger_redo` intent and consumes it immediately: the
subtask is rewritten by the stub worker and ends with status `done` (the
stub reviewer always accepts) — not `pending` —, a trigger_redo-derived
orchestrator message is appended to the transcript, the intent queue is
drained, and the watermark advances to the decision's timestamp. -/
theorem c1_redo_consumption (o : Oracles) (plan : Plan) (st : OState)
    (log : List Envelope) (sid r ts : String) (i : Nat)
    (hlog : log = [{ payload_type := "coord_decision", subtask_id := sid, decision := "redo", reason := r, timestamp := ts }])
    (hsid : sid ≠ "")
    (hts : (ts ≠ "" && strGe ((st.extra.processed_redo_decisions.lookup sid).getD "") ts) = false)
    (hev : st.orch_events = [])
    (hidx : plan.subtasks.findIdx? (fun sub => sub.id = sid) = some i) :
    ((auto_trigger_redo_from_logs o plan st log).1.subtasks.get! i).status = "done" ∧
    ((auto_trigger_redo_from_logs o plan st log).1.subtasks.get! i).needs_redo = false ∧
    ((auto_trigger_redo_from_logs o plan st log).1.subtasks.get! i).output =
      run_worker_for_subtask (plan.subtasks.get! i)
        (if r ≠ "" then r
         else "Redo requested by reviewer at " ++ (if ts ≠ "" then ts else "latest")) ∧
    (auto_trigger_redo_from_logs o plan st log).2.orchestrator_messages =
      st.orchestrator_messages ++
        [("orchestrator", "I’ve rewritten subtask " ++ (plan.subtasks.get! i).id ++
          " based on your instructions.\n\nUpdated version:\n" ++
          run_worker_for_subtask (plan.subtasks.get! i)
            (if r ≠ "" then r
             else "Redo requested by reviewer at " ++
               (if ts ≠ "" then ts else "latest")) ++
          "\n\nReviewer notes:\n" ++ "placeholder review")] ∧
    (auto_trigger_redo_from_logs o plan st log).2.orch_events = [] ∧
    (auto_trigger_redo_from_logs o plan st log).2.extra.processed_redo_decisions =
      (if ts ≠ "" then assocSet st.extra.processed_redo_decisions sid ts
       else st.extra.processed_redo_decisions) := by
  have hlatest : latestRedoDecisions log =
      [(sid, { decision := "redo", reason := r, timestamp := ts })] := by
    rw [hlog]
    unfold latestRedoDecisions
    rw [List.foldl_cons, List.foldl_nil]
    simp only [show pyLower "coord_decision" = "coord_decision" from rfl,
      show pyLower "redo" = "redo" from rfl]
    simp [hsid]
  have hcomp : computeNewRedoEvents log st =
      ([{ kind := "TRIGGER_REDO", target_subtask_id := .strT sid,
          instructions := if r ≠ "" then r
            else "Redo requested by reviewer at " ++
              (if ts ≠ "" then ts else "latest") }],
       if ts ≠ "" then assocSet st.extra.processed_redo_decisions sid ts
       else st.extra.processed_redo_decisions) := by
    unfold computeNewRedoEvents
    rw [hlatest, hev]
    rw [List.foldl_cons, List.foldl_nil]
    dsimp only
    simp only [hts]
    simp
    split <;> simp
  have hlen : i < plan.subtasks.length := (findIdx?_lt_length hidx).1
  have hlen1 : i < (plan.subtasks.set i ({ plan.subtasks.get! i with
      output := run_worker_for_subtask (plan.subtasks.get! i)
        (if r ≠ "" then r
         else "Redo requested by reviewer at " ++ (if ts ≠ "" then ts else "latest")),
      needs_redo := false } : Subtask)).length := by
    rw [List.length_set]
    exact hlen
  unfold auto_trigger_redo_from_logs
  rw [hcomp]
  dsimp only
  rw [if_neg (by simp)]
  unfold consume_orchestrator_events
  rw [hev]
  dsimp only
  rw [List.nil_append, List.foldl_cons, List.foldl_nil]
  unfold consumeOneEvent
  dsimp only
  simp only [show normalize_event_kind (if ("" : String) ≠ "" then "" else "TRIGGER_REDO") = "TRIGGER_REDO" from rfl]
  simp only [show (("TRIGGER_REDO" : String) = "REQUEST_CONTENT_CHANGE") = False from by simp,
    show (("TRIGGER_REDO" : String) = "REQUEST_PLAN_UPDATE") = False from by simp,
    show (("TRIGGER_REDO" : String) = "REQUEST_OTHER") = False from by simp,
    show (("TRIGGER_REDO" : String) = "TRIGGER_REDO") = True from by simp,
    if_false, if_true, if_neg, if_pos]
  unfold findTargetIdx
  dsimp only
  rw [hidx]
  dsimp only
  simp only [run_reviewer_on_output]
  simp only [show pyLower "accept" = "accept" from rfl,
    show (("accept" : String) = "redo") = False from by simp,
    show (("placeholder review" : String) ≠ "") = True from by simp,
    if_false, if_true]
  constructor
  · rw [get!_set_self _ _ _ hlen1]
  constructor
  · rw [get!_set_self _ _ _ hlen1]
  constructor
  · rw [get!_set_self _ _ _ hlen1]
  constructor
  · simp [addMessage]
  constructor
  · trivial
  · simp

theorem c1_redo_consumption_witness :
    ((auto_trigger_redo_from_logs {} { plan_id := "p1w", title := "P", subtasks := [{ id := "t6", title := "draft", status := "done", output := "old" }] } { session_id := "s1w", plan_id := "p1w" } [{ payload_type := "coord_decision", subtask_id := "t6", decision := "redo", reason := "旧版不合适", timestamp := "2024-02-02T00:00:00" }]).1.subtasks.get! 0).status = "done" ∧
    ((auto_trigger_redo_from_logs {} { plan_id := "p1w", title := "P", subtasks := [{ id := "t6", title := "draft", status := "done", output := "old" }] } { session_id := "s1w", plan_id := "p1w" } [{ payload_type := "coord_decision", subtask_id := "t6", decision := "redo", reason := "旧版不合适", timestamp := "2024-02-02T00:00:00" }]).1.subtasks.get! 0).needs_redo = false ∧
    ((auto_trigger_redo_from_logs {} { plan_id := "p1w", title := "P", subtasks := [{ id := "t6", title := "draft", status := "done", output := "old" }] } { session_id := "s1w", plan_id := "p1w" } [{ payload_type := "coord_decision", subtask_id := "t6", decision := "redo", reason := "旧版不合适", timestamp := "2024-02-02T00:00:00" }]).1.subtasks.get! 0).output = run_worker_for_subtask (({ plan_id := "p1w", title := "P", subtasks := [{ id := "t6", title := "draft", status := "done", output := "old" }] } : Plan).subtasks.get! 0) (if ("旧版不合适" : String) ≠ "" then "旧版不合适" else "Redo requested by reviewer at " ++ (if ("2024-02-02T00:00:00" : String) ≠ "" then "2024-02-02T00:00:00" else "latest")) ∧
    (auto_trigger_redo_from_logs {} { plan_id := "p1w", title := "P", subtasks := [{ id := "t6", title := "draft", status := "done", output := "old" }] } { session_id := "s1w", plan_id := "p1w" } [{ payload_type := "coord_decision", subtask_id := "t6", decision := "redo", reason := "旧版不合适", timestamp := "2024-02-02T00:00:00" }]).2.orchestrator_messages = ({ session_id := "s1w", plan_id := "p1w" } : OState).orchestrator_messages ++ [("orchestrator", "I’ve rewritten subtask " ++ (({ plan_id := "p1w", title := "P", subtasks := [{ id := "t6", title := "draft", status := "done", output := "old" }] } : Plan).subtasks.get! 0).id ++ " based on your instructions.\n\nUpdated version:\n" ++ run_worker_for_subtask (({ plan_id := "p1w", title := "P", subtasks := [{ id := "t6", title := "draft", status := "done", output := "old" }] } : Plan).subtasks.get! 0) (if ("旧版不合适" : String) ≠ "" then "旧版不合适" else "Redo requested by reviewer at " ++ (if ("2024-02-02T00:00:00" : String) ≠ "" then "2024-02-02T00:00:00" else "latest")) ++ "\n\nReviewer notes:\n" ++ "placeholder review")] ∧
    (auto_trigger_redo_from_logs {} { plan_id := "p1w", title := "P", subtasks := [{ id := "t6", title := "draft", status := "done", output := "old" }] } { session_id := "s1w", plan_id := "p1w" } [{ payload_type := "coord_decision", subtask_id := "t6", decision := "redo", reason := "旧版不合适", timestamp := "2024-02-02T00:00:00" }]).2.orch_events = [] ∧
    (auto_trigger_redo_from_logs {} { plan_id := "p1w", title := "P", subtasks := [{ id := "t6", title := "draft", status := "done", output := "old" }] } { session_id := "s1w", plan_id := "p1w" } [{ payload_type := "coord_decision", subtask_id := "t6", decision := "redo", reason := "旧版不合适", timestamp := "2024-02-02T00:00:00" }]).2.extra.processed_redo_decisions = (if ("2024-02-02T00:00:00" : String) ≠ "" then assocSet ({ session_id := "s1w", plan_id := "p1w" } : OState).extra.processed_redo_decisions "t6" "2024-02-02T00:00:00" else ({ session_id := "s1w", plan_id := "p1w" } : OState).extra.processed_redo_decisions) :=
  c1_redo_consumption {} { plan_id := "p1w", title := "P", subtasks := [{ id := "t6", title := "draft", status := "done", output := "old" }] } { session_id := "s1w", plan_id := "p1w" } [{ payload_type := "coord_decision", subtask_id := "t6", decision := "redo", reason := "旧版不合适", timestamp := "2024-02-02T00:00:00" }] "t6" "旧版不合适" "2024-02-02T00:00:00" 0 rfl (by decide) (by decide) rfl (by decide)

end MAP
